import Mathlib

/-!
Verification of the Dashboard repository's SD-card storage subsystem.

Shallow embedding of `src/components/sd_card_manager/sd_card_manager.c`,
`src/main/sd_card.c` and `src/main/ui/settings_config.c`.  External effects
(FreeRTOS, the SPI/VFS layer, the filesystem) are modelled by explicit
environment records whose fields give the outcome of each external call, and
every embedded function additionally returns a trace of the externally
visible events it performed, so that locking and file-access behaviour can
be stated and proved.
-/

namespace Dashboard

/-- `esp_err_t` values that appear in the sources.  `other` covers any
further error code coming back from the HAL. -/
inductive EspErr where
  | ESP_OK
  | ESP_FAIL
  | ESP_ERR_INVALID_STATE
  | ESP_ERR_TIMEOUT
  | ESP_ERR_NO_MEM
  | ESP_ERR_NOT_FOUND
  | ESP_ERR_INVALID_RESPONSE
  | other (code : Nat)
deriving DecidableEq, Repr

open EspErr

/-- Identity of a mutex object.  The repository contains two distinct
`static SemaphoreHandle_t sd_card_mutex` variables: one in
`sd_card_manager.c` (created by `sd_card_init`, possibly recreated, so it
carries a numeric instance id) and one in `settings_config.c`. -/
inductive Lock where
  | mgr (id : Nat)
  | cfg
deriving DecidableEq, Repr

/-- Externally visible events performed by the embedded functions. -/
inductive Ev where
  | delay (ms : Nat)
  | busInit (attempt : Nat)
  | busFree
  | mountCall (attempt : Nat) (formatIfFailed : Bool) (freqKhz : Nat)
  | unmount
  | lockCreate (id : Nat) (ok : Bool)
  | lockDelete (id : Nat)
  | take (l : Lock) (ok : Bool)
  | give (l : Lock)
  | openDirE (path : String) (ok : Bool)
  | mkdirE (path : String) (ok : Bool)
  | fopenE (path : String) (mode : String) (ok : Bool)
  | fwriteE (path : String)
  | removeE (path : String)
deriving DecidableEq, Repr

/-- `sdmmc_card_t`: the fields of the card descriptor actually read by the
code (`csd.capacity` and `csd.sector_size`). -/
structure Card where
  capacity : Nat
  sector_size : Nat
deriving DecidableEq, Repr

/-- The mutable static state of `sd_card_manager.c`:
`sd_card_initialized`, `s_card` and `sd_card_mutex`.  `nextMutexId` is a
ghost counter used to give each `xSemaphoreCreateMutex` result a fresh
identity. -/
structure MgrState where
  initialized : Bool
  card : Option Card
  mutex : Option Nat
  nextMutexId : Nat
deriving DecidableEq, Repr

/-- The state at program start: all statics zero-initialized. -/
def mgrState0 : MgrState :=
  { initialized := false, card := none, mutex := none, nextMutexId := 0 }

/-- One step of the lock-discipline check: `none` means an over-release
was observed, `some held` is the multiset of currently held locks. -/
def lockStep : Option (List Lock) → Ev → Option (List Lock)
  | none, _ => none
  | some held, Ev.take l true => some (l :: held)
  | some held, Ev.give l => if l ∈ held then some (held.erase l) else none
  | some held, _ => some held

/-- Fold the lock-discipline check over a trace from a starting held set. -/
def lockRun (init : Option (List Lock)) (tr : List Ev) : Option (List Lock) :=
  tr.foldl lockStep init

/-- A trace is lock-balanced when, started holding nothing, it never
releases a lock it does not hold and ends holding nothing: every
successful acquisition is released exactly once. -/
def lockOk (tr : List Ev) : Prop := lockRun (some []) tr = some []

instance (tr : List Ev) : Decidable (lockOk tr) := by
  unfold lockOk; infer_instance

/-- Locks successfully taken somewhere in a trace. -/
def locksTaken (tr : List Ev) : List Lock :=
  tr.filterMap fun e => match e with
    | Ev.take l true => some l
    | _ => none

/-- Whether a trace contains a medium file access (an `fopen`). -/
def touchesMedium (tr : List Ev) : Bool :=
  tr.any fun e => match e with
    | Ev.fopenE _ _ _ => true
    | _ => false

/-! ## `sd_card_deinit` / `sd_card_full_deinit` (sd_card_manager.c:111-156) -/

/-- `sd_card_deinit`: clears the initialized flag, unmounts if a card is
present (best effort), deletes the mutex if present.  The SPI bus is kept. -/
def sd_card_deinit (st : MgrState) : EspErr × MgrState × List Ev :=
  let st1 : MgrState := { st with initialized := false }
  let (st2, tr1) : MgrState × List Ev :=
    match st1.card with
    | some _ => ({ st1 with card := none }, [Ev.unmount])
    | none => (st1, [])
  let (st3, tr2) : MgrState × List Ev :=
    match st2.mutex with
    | some m => ({ st2 with mutex := none }, [Ev.lockDelete m])
    | none => (st2, [])
  (ESP_OK, st3, tr1 ++ tr2)

/-- `sd_card_full_deinit`: `sd_card_deinit` followed by `spi_bus_free`. -/
def sd_card_full_deinit (st : MgrState) : EspErr × MgrState × List Ev :=
  (ESP_OK, (sd_card_deinit st).2.1, (sd_card_deinit st).2.2 ++ [Ev.busFree])

/-! ## `sd_card_init` (sd_card_manager.c:32-109) -/

/-- Environment for one initialization attempt: the result of
`spi_bus_initialize`, the result of `esp_vfs_fat_sdspi_mount` together
with the card descriptor it installs on success, and whether
`xSemaphoreCreateMutex` returns a non-null handle. -/
structure InitAttemptEnv where
  busResult : EspErr
  mountResult : EspErr
  mountedCard : Card
  mutexCreateOk : Bool

/-- Environment for `sd_card_init`, indexed by the 1-based attempt number. -/
def InitEnv : Type := Nat → InitAttemptEnv

/-- The retry loop of `sd_card_init` (`for attempt = 1..max_retries`).
`lastRet` is the running value of the local `ret`; when the loop is
exhausted that value is returned. -/
def initLoop (env : InitEnv) (st : MgrState) (attempt : Nat) (fuel : Nat)
    (lastRet : EspErr) : EspErr × MgrState × List Ev :=
  match fuel with
  | 0 => (lastRet, st, [])
  | fuel + 1 =>
    let a := env attempt
    let tr0 : List Ev := [Ev.delay (300 * attempt), Ev.busInit attempt]
    -- ret = spi_bus_initialize(...)
    if a.busResult ≠ ESP_OK ∧ a.busResult ≠ ESP_ERR_INVALID_STATE then
      -- bus-configure failure: full teardown, continue
      let res := initLoop env (sd_card_full_deinit st).2.1 (attempt + 1) fuel
        a.busResult
      (res.1, res.2.1, tr0 ++ (sd_card_full_deinit st).2.2 ++ res.2.2)
    else
      let freq : Nat := if attempt = 1 then 8000 else 4000
      let fmt : Bool := decide (attempt > 1)
      let tr1 : List Ev := tr0 ++ [Ev.mountCall attempt fmt freq]
      -- ret = esp_vfs_fat_sdspi_mount(...)
      if a.mountResult = ESP_OK then
        let stM : MgrState := { st with card := some a.mountedCard }
        if a.mutexCreateOk then
          let m := stM.nextMutexId
          (ESP_OK,
           { stM with mutex := some m, nextMutexId := m + 1, initialized := true },
           tr1 ++ [Ev.lockCreate m true])
        else
          -- mutex creation failed: full cleanup, counts as a failed attempt,
          -- but the local ret still holds ESP_OK from the successful mount
          let res := initLoop env (sd_card_full_deinit stM).2.1 (attempt + 1)
            fuel ESP_OK
          (res.1, res.2.1,
           tr1 ++ [Ev.lockCreate stM.nextMutexId false] ++
             (sd_card_full_deinit stM).2.2 ++ res.2.2)
      else
        let res := initLoop env (sd_card_full_deinit st).2.1 (attempt + 1) fuel
          a.mountResult
        (res.1, res.2.1, tr1 ++ (sd_card_full_deinit st).2.2 ++ res.2.2)

/-- `sd_card_init`: full de-init first if already marked initialized, then
up to 3 attempts; `ret` starts as `ESP_FAIL`. -/
def sd_card_init (env : InitEnv) (st : MgrState) : EspErr × MgrState × List Ev :=
  let st1 : MgrState :=
    if st.initialized then (sd_card_full_deinit st).2.1 else st
  let tr0 : List Ev :=
    if st.initialized then (sd_card_full_deinit st).2.2 ++ [Ev.delay 200] else []
  let res := initLoop env st1 1 3 ESP_FAIL
  (res.1, res.2.1, tr0 ++ res.2.2)

/-! ## `sd_card_is_initialized` (sd_card_manager.c:368-385) -/

/-- `sd_card_is_initialized`: basic checks on the three statics, then a
liveness probe (`opendir(MOUNT_POINT)`) whose failure demotes the state to
uninitialized as a side effect.  `probeOk` is the probe outcome. -/
def sd_card_is_initialized (probeOk : Bool) (st : MgrState) :
    Bool × MgrState × List Ev :=
  if ¬ st.initialized ∨ st.card = none ∨ st.mutex = none then
    (false, st, [])
  else if probeOk then
    (true, st, [Ev.openDirE "/sdcard" true])
  else
    (false, { st with initialized := false }, [Ev.openDirE "/sdcard" false])

/-! ## `sd_card_get_info` (sd_card_manager.c:387-466) -/

/-- Environment for `sd_card_get_info`: the liveness-probe outcome and, for
each test file index (0..2) and retry (0..2), whether the write+read-back
probe succeeds. -/
structure InfoEnv where
  probeOk : Bool
  probe : Nat → Nat → Bool

/-- The probe scan order of `sd_card_get_info`: three candidate files, each
retried up to 3 times, stopping at the first success. -/
def infoProbePairs : List (Nat × Nat) :=
  (List.range 3).flatMap fun f => (List.range 3).map fun r => (f, r)

/-- First successful (file, retry) probe, in scan order. -/
def infoProbeHit (env : InfoEnv) : Option (Nat × Nat) :=
  infoProbePairs.find? fun p => env.probe p.1 p.2

/-- `sd_card_get_info`.  `wantTotal`/`wantFree` model whether the caller
passed non-null pointers; the returned options are the values stored
through them.  All arithmetic is C `uint64_t` arithmetic (mod 2^64). -/
def sd_card_get_info (env : InfoEnv) (st : MgrState)
    (wantTotal wantFree : Bool) :
    EspErr × Option Nat × Option Nat × MgrState × List Ev :=
  let probe := sd_card_is_initialized env.probeOk st
  let st1 := probe.2.1
  if ¬ probe.1 then
    (ESP_ERR_INVALID_STATE, none, none, st1, probe.2.2)
  else
    let total : Option Nat :=
      match st1.card, wantTotal with
      | some c, true => some (c.capacity * c.sector_size % 2 ^ 64)
      | _, _ => none
    let free : Option Nat :=
      if wantFree then
        if (infoProbeHit env).isSome then
          match total with
          | some t =>
            if t > 0 then some (t * 85 % 2 ^ 64 / 100)
            else
              match st1.card with
              | some c =>
                some (c.capacity * c.sector_size % 2 ^ 64 * 85 % 2 ^ 64 / 100)
              | none => some (1024 * 1024)
          | none =>
            match st1.card with
            | some c =>
              some (c.capacity * c.sector_size % 2 ^ 64 * 85 % 2 ^ 64 / 100)
            | none => some (1024 * 1024)
        else some 0
      else none
    (ESP_OK, total, free, st1, probe.2.2)

/-! ## `sd_card_stability_test` (sd_card_manager.c:574-630) -/

/-- The payload written by each stability iteration
(`"stability_test_data"`, 19 characters). -/
def stabilityPayload : List Char :=
  ['s', 't', 'a', 'b', 'i', 'l', 'i', 't', 'y', '_', 't', 'e', 's', 't',
   '_', 'd', 'a', 't', 'a']

/-- Environment for one stability iteration: whether the write open
succeeds, how many bytes `fwrite` reports, whether the read open succeeds,
and the bytes `fread` returns (at most 31, the read-buffer bound). -/
structure StabIterEnv where
  openW : Bool
  written : Nat
  openR : Bool
  readData : List Char

/-- One stability iteration succeeds when the file opened, all payload
bytes were written, the re-open succeeded, and the read returned exactly
the payload length with matching bytes. -/
def stabIterSuccess (e : StabIterEnv) : Bool :=
  e.openW && (e.written == stabilityPayload.length) && e.openR &&
    (e.readData.length == stabilityPayload.length) &&
    (e.readData.take stabilityPayload.length == stabilityPayload)

/-- Temp-file name used by iteration `i`. -/
def stabFileName (i : Nat) : String :=
  "/sdcard/stab_test_" ++ toString i ++ ".tmp"

/-- Trace of one stability iteration.  The temp file is removed whenever it
was created (write open succeeded), regardless of the later outcome. -/
def stabIterTrace (i : Nat) (e : StabIterEnv) : List Ev :=
  (if e.openW then
    [Ev.fopenE (stabFileName i) "w" true, Ev.fwriteE (stabFileName i)] ++
      (if e.written == stabilityPayload.length then
        [Ev.fopenE (stabFileName i) "r" e.openR]
      else []) ++
    [Ev.removeE (stabFileName i)]
  else [Ev.fopenE (stabFileName i) "w" false]) ++ [Ev.delay 50]

/-- Number of successful iterations among the 10. -/
def stabSuccessCount (env : Nat → StabIterEnv) : Nat :=
  ((List.range 10).filter fun i => stabIterSuccess (env i)).length

/-- `sd_card_stability_test`.  The C success rate is
`(float)successes / 10 * 100`, which is exact for 0..10 successes, so it is
modelled as the integer percentage `successes * 10`. -/
def sd_card_stability_test (env : Nat → StabIterEnv) (st : MgrState) :
    EspErr × List Ev :=
  if ¬ st.initialized ∨ st.card = none then
    (ESP_ERR_INVALID_STATE, [])
  else
    let tr := (List.range 10).flatMap fun i => stabIterTrace i (env i)
    let rate := stabSuccessCount env * 10
    ((if rate ≥ 80 then ESP_OK
      else if rate ≥ 50 then ESP_ERR_INVALID_RESPONSE
      else ESP_FAIL), tr)

/-! ## `ensure_dir_exists` (sd_card_manager.c:161-195) -/

/-- Environment for `ensure_dir_exists`: whether `strdup` succeeds, whether
the parent directory already exists (the `opendir` probe), and whether
`mkdir` succeeds. -/
structure DirEnv where
  strdupOk : Bool
  dirExists : Bool
  mkdirOk : Bool

/-- Index of the last `'/'` in a character list (`strrchr`). -/
def lastSlashIdx (cs : List Char) : Option Nat :=
  (List.range cs.length).foldl
    (fun acc i => if cs.get? i = some '/' then some i else acc) none

/-- The parent-directory part of a path: the prefix before its last slash. -/
def parentDir (path : String) : Option String :=
  match lastSlashIdx path.data with
  | none => none
  | some 0 => none  -- the last slash is the root slash
  | some i => some ⟨path.data.take i⟩

/-- `ensure_dir_exists`: duplicates the path, finds the last slash; when it
exists and is not the root slash, probes the parent directory and creates
it (single level) on absence. -/
def ensure_dir_exists (env : DirEnv) (path : String) : EspErr × List Ev :=
  if ¬ env.strdupOk then (ESP_ERR_NO_MEM, [])
  else
    match parentDir path with
    | none => (ESP_OK, [])
    | some d =>
      if env.dirExists then (ESP_OK, [Ev.openDirE d true])
      else if env.mkdirOk then
        (ESP_OK, [Ev.openDirE d false, Ev.mkdirE d true])
      else (ESP_FAIL, [Ev.openDirE d false, Ev.mkdirE d false])

/-! ## `sd_card_write_file` (sd_card_manager.c:197-334) -/

/-- Environment for one iteration of the file-open retry loop of
`sd_card_write_file`: the `fopen` outcome, the liveness-probe outcome used
when the iteration re-checks the card, the environment of a possible
mid-operation `sd_card_init`, and whether the mutex re-acquire succeeds. -/
structure WriteRetryEnv where
  fopenOk : Bool
  probeOk : Bool
  reinit : InitEnv
  retakeOk : Bool

/-- Result of the file-open retry loop: the file was opened (still holding
mutex `m`), the loop exhausted its attempts (still holding `m`), or the
function already returned with an error (holding nothing). -/
inductive OpenRes where
  | opened (st : MgrState) (m : Nat) (tr : List Ev)
  | failedOpen (st : MgrState) (m : Nat) (tr : List Ev)
  | err (e : EspErr) (st : MgrState) (tr : List Ev)

/-- Prefix a trace onto an `OpenRes`. -/
def OpenRes.prepend (tr : List Ev) : OpenRes → OpenRes
  | .opened st m tr' => .opened st m (tr ++ tr')
  | .failedOpen st m tr' => .failedOpen st m (tr ++ tr')
  | .err e st tr' => .err e st (tr ++ tr')

/-- The retry loop of `sd_card_write_file`
(`for retry = 0..2 while f == NULL`).  On iterations after the first it
waits a progressive delay and re-probes the card; if the card is gone it
releases the mutex, reinitializes, and only on success re-acquires the
(new) mutex and retries.  In the `none` mutex branch the reinit reported
`ESP_OK` without installing a mutex (the lock-creation corner of
`sd_card_init`); the C then calls `xSemaphoreTake(NULL, ...)`, which does
not return normally (FreeRTOS assertion) — modelled as an error return
holding no lock, which is what matters for the lock discipline. -/
def writeOpenLoop (path : String) (renv : Nat → WriteRetryEnv)
    (st : MgrState) (m : Nat) (retry fuel : Nat) : OpenRes :=
  match fuel with
  | 0 => .failedOpen st m []
  | fuel + 1 =>
    let e := renv retry
    if retry = 0 then
      if e.fopenOk then .opened st m [Ev.fopenE path "w" true]
      else
        OpenRes.prepend [Ev.fopenE path "w" false]
          (writeOpenLoop path renv st m (retry + 1) fuel)
    else
      let pre : List Ev := [Ev.delay (100 + retry * 100)]
      let probe := sd_card_is_initialized e.probeOk st
      let st1 := probe.2.1
      let trI := probe.2.2
      if probe.1 then
        if e.fopenOk then .opened st1 m (pre ++ trI ++ [Ev.fopenE path "w" true])
        else
          OpenRes.prepend (pre ++ trI ++ [Ev.fopenE path "w" false])
            (writeOpenLoop path renv st1 m (retry + 1) fuel)
      else
        let trG := pre ++ trI ++ [Ev.give (Lock.mgr m)]
        let ri := sd_card_init e.reinit st1
        let st2 := ri.2.1
        let trR := ri.2.2
        if ri.1 ≠ ESP_OK then .err ESP_ERR_INVALID_STATE st2 (trG ++ trR)
        else
          match st2.mutex with
          | some m' =>
            if e.retakeOk then
              if e.fopenOk then
                .opened st2 m'
                  (trG ++ trR ++ [Ev.take (Lock.mgr m') true, Ev.fopenE path "w" true])
              else
                OpenRes.prepend
                  (trG ++ trR ++ [Ev.take (Lock.mgr m') true, Ev.fopenE path "w" false])
                  (writeOpenLoop path renv st2 m' (retry + 1) fuel)
            else .err ESP_ERR_TIMEOUT st2 (trG ++ trR ++ [Ev.take (Lock.mgr m') false])
          | none => .err ESP_ERR_TIMEOUT st2 (trG ++ trR)

/-- Environment for `sd_card_write_file`. -/
structure WriteEnv where
  takeOk : Bool
  dirEnv : DirEnv
  rootDirOk : Bool
  testOpenOk : Bool
  testReadOk : Bool
  tmpOpenOk : Bool
  tmpReadOk : Bool
  retry : Nat → WriteRetryEnv

/-- Trace of the two diagnostic blocks of `sd_card_write_file`
(`/sdcard/test.txt` and `/sdcard/write_test.tmp`): purely informational,
no early returns, each created file is removed inside its own branch. -/
def writeDiagTrace (env : WriteEnv) : List Ev :=
  (if env.testOpenOk then
    [Ev.fopenE "/sdcard/test.txt" "w" true, Ev.fwriteE "/sdcard/test.txt",
     Ev.fopenE "/sdcard/test.txt" "r" env.testReadOk,
     Ev.removeE "/sdcard/test.txt"]
  else [Ev.fopenE "/sdcard/test.txt" "w" false]) ++
  (if env.tmpOpenOk then
    [Ev.fopenE "/sdcard/write_test.tmp" "w" true,
     Ev.fwriteE "/sdcard/write_test.tmp",
     Ev.fopenE "/sdcard/write_test.tmp" "r" env.tmpReadOk,
     Ev.removeE "/sdcard/write_test.tmp"]
  else [Ev.fopenE "/sdcard/write_test.tmp" "w" false])

/-- `sd_card_write_file`: requires the card initialized and the mutex
present, acquires the mutex with a bounded (5 s) wait, ensures the parent
directory, verifies mount-root accessibility, runs the diagnostic blocks,
then the retry loop, and finally writes and releases the mutex. -/
def sd_card_write_file (env : WriteEnv) (st : MgrState)
    (path : String) (_data : String) : EspErr × MgrState × List Ev :=
  if ¬ st.initialized ∨ st.card = none then (ESP_ERR_INVALID_STATE, st, [])
  else
    match st.mutex with
    | none => (ESP_ERR_INVALID_STATE, st, [])
    | some m =>
      if ¬ env.takeOk then (ESP_ERR_TIMEOUT, st, [Ev.take (Lock.mgr m) false])
      else
        let tr0 : List Ev := [Ev.take (Lock.mgr m) true]
        let trD := (ensure_dir_exists env.dirEnv path).2
        if (ensure_dir_exists env.dirEnv path).1 ≠ ESP_OK then
          (ESP_FAIL, st, tr0 ++ trD ++ [Ev.give (Lock.mgr m)])
        else if ¬ env.rootDirOk then
          (ESP_FAIL, st,
           tr0 ++ trD ++ [Ev.openDirE "/sdcard" false, Ev.give (Lock.mgr m)])
        else
          let tr2 := tr0 ++ trD ++ [Ev.openDirE "/sdcard" true] ++ writeDiagTrace env
          match writeOpenLoop path env.retry st m 0 3 with
          | .opened st' m' trL =>
            (ESP_OK, st', tr2 ++ trL ++ [Ev.fwriteE path, Ev.give (Lock.mgr m')])
          | .failedOpen st' m' trL =>
            (ESP_FAIL, st', tr2 ++ trL ++ [Ev.give (Lock.mgr m')])
          | .err e st' trL => (e, st', tr2 ++ trL)

/-! ## `sd_card_append_file` (sd_card_manager.c:336-357) -/

/-- Environment for `sd_card_append_file`. -/
structure AppendEnv where
  takeOk : Bool
  dirEnv : DirEnv
  fopenOk : Bool

/-- `sd_card_append_file`: no initialization or mutex-existence check; it
immediately takes the mutex with an unbounded wait.  When the mutex is
null, `xSemaphoreTake(NULL, portMAX_DELAY)` has no defined return
(FreeRTOS assertion), modelled as `none`. -/
def sd_card_append_file (env : AppendEnv) (st : MgrState)
    (path : String) (_data : String) : Option (EspErr × MgrState × List Ev) :=
  match st.mutex with
  | none => none
  | some m =>
    if ¬ env.takeOk then some (ESP_ERR_TIMEOUT, st, [Ev.take (Lock.mgr m) false])
    else
      let tr0 : List Ev := [Ev.take (Lock.mgr m) true]
      let trD := (ensure_dir_exists env.dirEnv path).2
      if (ensure_dir_exists env.dirEnv path).1 ≠ ESP_OK then
        some (ESP_FAIL, st, tr0 ++ trD ++ [Ev.give (Lock.mgr m)])
      else if ¬ env.fopenOk then
        some (ESP_FAIL, st,
          tr0 ++ trD ++ [Ev.fopenE path "a" false, Ev.give (Lock.mgr m)])
      else
        some (ESP_OK, st,
          tr0 ++ trD ++ [Ev.fopenE path "a" true, Ev.fwriteE path,
            Ev.give (Lock.mgr m)])

/-! ## Configuration persistence (src/main/ui/settings_config.c)

The header `settings_config.h` (declaring `touch_settings_t` and the
`MIN_/MAX_/DEFAULT_*` and `SCREEN*_ARCS_COUNT` constants) is not among the
provided sources; the constants below are modelled from the spec. -/

/-- Modelled from the spec: `settings_config.h` is missing from src.  The
spec only states `sensitivity: int in [MIN,MAX]`; the concrete bounds are
representative.  Nothing in `settings_config.c` reads this constant except
`settings_validate`. -/
def MIN_TOUCH_SENSITIVITY : Int := 1

/-- Modelled from the spec: see `MIN_TOUCH_SENSITIVITY`. -/
def MAX_TOUCH_SENSITIVITY : Int := 10

/-- Modelled from the spec: default sensitivity, within `[MIN,MAX]`. -/
def DEFAULT_TOUCH_SENSITIVITY : Int := 5

/-- Modelled from the spec: default demo-mode flag. -/
def DEFAULT_DEMO_MODE_ENABLED : Bool := false

/-- Modelled from the spec: default feature-screen flag. -/
def DEFAULT_SCREEN3_ENABLED : Bool := false

/-- Modelled from the spec: size of the first fixed-size visibility array. -/
def SCREEN1_ARCS_COUNT : Nat := 4

/-- Modelled from the spec: size of the second fixed-size visibility array. -/
def SCREEN2_ARCS_COUNT : Nat := 4

/-- `touch_settings_t` (modelled from the spec for the missing header; the
field set is the one `settings_config.c` reads and writes).  The two
fixed-size boolean arrays are modelled as lists of the declared lengths. -/
structure touch_settings_t where
  touch_sensitivity_level : Int
  demo_mode_enabled : Bool
  screen3_enabled : Bool
  screen1_arcs_enabled : List Bool
  screen2_arcs_enabled : List Bool
deriving DecidableEq, Repr

/-- `settings_init_defaults` writes these values into the record
(settings_config.c:51-63): the three defaults, and every arc flag true. -/
def settings_init_defaults : touch_settings_t :=
  { touch_sensitivity_level := DEFAULT_TOUCH_SENSITIVITY
    demo_mode_enabled := DEFAULT_DEMO_MODE_ENABLED
    screen3_enabled := DEFAULT_SCREEN3_ENABLED
    screen1_arcs_enabled := List.replicate SCREEN1_ARCS_COUNT true
    screen2_arcs_enabled := List.replicate SCREEN2_ARCS_COUNT true }

/-- The static `current_settings` at program start (C zero-initialized
static: zero sensitivity, false flags, all-false arrays). -/
def currentSettings0 : touch_settings_t :=
  { touch_sensitivity_level := 0
    demo_mode_enabled := false
    screen3_enabled := false
    screen1_arcs_enabled := List.replicate SCREEN1_ARCS_COUNT false
    screen2_arcs_enabled := List.replicate SCREEN2_ARCS_COUNT false }

/-- `settings_validate` (settings_config.c:244): false when the sensitivity
is outside `[MIN,MAX]`, true otherwise. -/
def settings_validate (s : touch_settings_t) : Bool :=
  !(s.touch_sensitivity_level < MIN_TOUCH_SENSITIVITY ||
    s.touch_sensitivity_level > MAX_TOUCH_SENSITIVITY)

/-! ### Serialization helpers (`snprintf` / `strstr` / `atoi`) -/

/-- Decimal digits of a natural number (the `%d` rendering). -/
def natDigitChars (n : Nat) : List Char := Nat.toDigits 10 n

/-- The `%d` rendering of a C int. -/
def intChars (v : Int) : List Char :=
  if v < 0 then '-' :: natDigitChars v.natAbs else natDigitChars v.toNat

/-- The `%s` rendering of the boolean ternaries in `settings_to_json`. -/
def boolChars (b : Bool) : List Char :=
  if b then "true".data else "false".data

/-- `strstr`: index of the first occurrence of `needle` in `hay`. -/
def strstrIdx (hay needle : List Char) : Option Nat :=
  (List.range (hay.length + 1)).find? fun i => needle.isPrefixOf (hay.drop i)

/-- Digit-accumulation phase of `atoi`. -/
def atoiDigits : List Char → Nat → Nat
  | c :: cs, acc =>
    if c.isDigit then atoiDigits cs (acc * 10 + (c.toNat - 48)) else acc
  | [], acc => acc

/-- `atoi`: skips leading whitespace, handles an optional sign, then
accumulates decimal digits (overflow is not modelled; the inputs in scope
are tiny). -/
def atoi (cs : List Char) : Int :=
  let cs := cs.dropWhile fun c =>
    c == ' ' || c == '\t' || c == '\n' || c == '\x0b' || c == '\x0c' || c == '\r'
  match cs with
  | '-' :: rest => -(atoiDigits rest 0 : Int)
  | '+' :: rest => (atoiDigits rest 0 : Int)
  | _ => (atoiDigits cs 0 : Int)

/-- The serialized form produced by `settings_to_json` for the three
persisted scalar values (settings_config.c:22-29).  The `snprintf` buffer
is 256 bytes and this string is at most 69 characters, so no truncation
occurs.  The braces are the JSON object braces. -/
def jsonOfFields (v : Int) (d s : Bool) : List Char :=
  [Char.ofNat 123] ++ "\"sensitivity\":".data ++ intChars v ++
    ",\"demo_mode\":".data ++ boolChars d ++
    ",\"screen3_enabled\":".data ++ boolChars s ++ [Char.ofNat 125]

/-- `settings_to_json`: only the three scalar fields are serialized; the
arc-visibility arrays are not persisted. -/
def settings_to_json (s : touch_settings_t) : List Char :=
  jsonOfFields s.touch_sensitivity_level s.demo_mode_enabled s.screen3_enabled

/-- The key-scanning phase of `settings_from_json`
(settings_config.c:32-49): all three keys must be present; the sensitivity
is `atoi` of what follows its key; each boolean is true iff the literal
`"true"` occurs anywhere from its key position to the end of the string
(`strstr(demo_ptr, "true")`). -/
def settings_from_json_fields (json : List Char) : Option (Int × Bool × Bool) :=
  let sensKey := "\"sensitivity\":".data
  let demoKey := "\"demo_mode\":".data
  let s3Key := "\"screen3_enabled\":".data
  match strstrIdx json sensKey, strstrIdx json demoKey, strstrIdx json s3Key with
  | some si, some di, some ti =>
    some (atoi (json.drop (si + sensKey.length)),
      (strstrIdx (json.drop di) "true".data).isSome,
      (strstrIdx (json.drop ti) "true".data).isSome)
  | _, _, _ => none

/-- `settings_from_json`: on success the three parsed values are written
into the record (the arc arrays are untouched); on a missing key the
record is untouched and the parse is rejected. -/
def settings_from_json (json : List Char) (settings : touch_settings_t) :
    Option touch_settings_t :=
  match settings_from_json_fields json with
  | some (v, d, s) =>
    some { settings with touch_sensitivity_level := v,
                         demo_mode_enabled := d, screen3_enabled := s }
  | none => none

/-! ### `settings_save` / `settings_load` -/

/-- State of the configuration subsystem: the `settings_config.c` static
mutex, the content of `/sdcard/settings.cfg`, and the in-memory
`current_settings`. -/
structure CfgState where
  mutexCreated : Bool
  fileContent : Option (List Char)
  current : touch_settings_t
deriving DecidableEq, Repr

/-- The configuration state at program start. -/
def cfgState0 : CfgState :=
  { mutexCreated := false, fileContent := none, current := currentSettings0 }

/-- Environment for the configuration operations: lazy mutex creation,
the two bounded mutex waits (1 s for load, 2 s for save), and the `fopen`
outcome inside `s_example_write_file`. -/
structure CfgEnv where
  mutexCreateOk : Bool
  takeLoadOk : Bool
  takeSaveOk : Bool
  writeOpenOk : Bool

/-- `s_example_write_file` (src/main/sd_card.c:17-35): opens the file for
writing (truncating), fails with `ESP_FAIL` when the open fails, otherwise
replaces the content.  (The C passes `data` as the `fprintf` format
string; the serialized settings contain no `%`, so this is the plain
write.) -/
def s_example_write_file (openOk : Bool) (content : Option (List Char))
    (path : String) (data : List Char) :
    EspErr × Option (List Char) × List Ev :=
  if openOk then
    (ESP_OK, some data, [Ev.fopenE path "w" true, Ev.fwriteE path])
  else (ESP_FAIL, content, [Ev.fopenE path "w" false])

/-- `settings_save` (settings_config.c:71-135): serializes the record,
takes the settings mutex with a 2 s wait (aborting silently when the mutex
is absent or the wait fails), writes via `s_example_write_file`, releases
the mutex.  Failures are logged, not escalated (the C returns void). -/
def settings_save (env : CfgEnv) (st : CfgState) (s : touch_settings_t) :
    CfgState × List Ev :=
  let json := settings_to_json s
  if ¬ st.mutexCreated then (st, [])
  else if ¬ env.takeSaveOk then (st, [Ev.take Lock.cfg false])
  else
    let (_, content', trW) :=
      s_example_write_file env.writeOpenOk st.fileContent "/sdcard/settings.cfg" json
    ({ st with fileContent := content' },
     [Ev.take Lock.cfg true] ++ trW ++ [Ev.give Lock.cfg])

/-- `settings_load` (settings_config.c:170-240): creates the settings mutex
lazily, takes it with a 1 s wait, reads up to 255 bytes of the settings
file, releases the mutex, then parses.  Absent file: defaults are
installed and immediately persisted via `settings_save`, and
`ESP_ERR_NOT_FOUND` is returned; unparsable file: defaults and `ESP_FAIL`;
mutex failures: defaults and `ESP_ERR_NO_MEM`/`ESP_ERR_TIMEOUT`. -/
def settings_load (env : CfgEnv) (st : CfgState) :
    EspErr × CfgState × List Ev :=
  if ¬ st.mutexCreated ∧ ¬ env.mutexCreateOk then
    (ESP_ERR_NO_MEM, { st with current := settings_init_defaults }, [])
  else
    let st := { st with mutexCreated := true }
    if ¬ env.takeLoadOk then
      (ESP_ERR_TIMEOUT, { st with current := settings_init_defaults },
       [Ev.take Lock.cfg false])
    else
      match st.fileContent with
      | some content =>
        let buffer := content.take 255
        let tr : List Ev :=
          [Ev.take Lock.cfg true, Ev.fopenE "/sdcard/settings.cfg" "r" true,
           Ev.give Lock.cfg]
        match settings_from_json buffer st.current with
        | some upd => (ESP_OK, { st with current := upd }, tr)
        | none =>
          (ESP_FAIL, { st with current := settings_init_defaults }, tr)
      | none =>
        let st1 := { st with current := settings_init_defaults }
        let (st2, trS) := settings_save env st1 st1.current
        (ESP_ERR_NOT_FOUND, st2,
         [Ev.take Lock.cfg true, Ev.fopenE "/sdcard/settings.cfg" "r" false,
          Ev.give Lock.cfg] ++ trS)

/-! ## Reachable manager states -/

/-- States of the manager reachable from program start through the
lifecycle and file operations. -/
inductive Reach : MgrState → Prop where
  | start : Reach mgrState0
  | init (env : InitEnv) {s : MgrState} :
      Reach s → Reach (sd_card_init env s).2.1
  | deinit {s : MgrState} : Reach s → Reach (sd_card_deinit s).2.1
  | fullDeinit {s : MgrState} : Reach s → Reach (sd_card_full_deinit s).2.1
  | isInit (probeOk : Bool) {s : MgrState} :
      Reach s → Reach (sd_card_is_initialized probeOk s).2.1
  | getInfo (env : InfoEnv) (wt wf : Bool) {s : MgrState} :
      Reach s → Reach (sd_card_get_info env s wt wf).2.2.2.1
  | write (env : WriteEnv) (path data : String) {s : MgrState} :
      Reach s → Reach (sd_card_write_file env s path data).2.1
  | append (env : AppendEnv) (path data : String)
      (r : EspErr × MgrState × List Ev) {s : MgrState} :
      Reach s → sd_card_append_file env s path data = some r → Reach r.2.1

/-! ## Trace helpers -/

/-- Number of filesystem-mount calls in a trace. -/
def mountCalls (tr : List Ev) : Nat :=
  tr.countP fun e => match e with
    | Ev.mountCall _ _ _ => true
    | _ => false

/-- Whether an event is an inter-attempt delay. -/
def isDelay : Ev → Bool
  | Ev.delay _ => true
  | _ => false

/-- Whether a single event is neutral for the lock discipline (anything
but a successful take or a give). -/
def evLockNeutral : Ev → Bool
  | Ev.take _ true => false
  | Ev.give _ => false
  | _ => true

/-- Whether a single event is not a take/give at all. -/
def evNoLock : Ev → Bool
  | Ev.take _ _ => false
  | Ev.give _ => false
  | _ => true

/-- Whether a single event avoids the settings mutex. -/
def evMgrOnly : Ev → Bool
  | Ev.take Lock.cfg _ => false
  | Ev.give Lock.cfg => false
  | _ => true

/-- Whether a single event avoids every manager mutex. -/
def evCfgOnly : Ev → Bool
  | Ev.take (Lock.mgr _) _ => false
  | Ev.give (Lock.mgr _) => false
  | _ => true

/-- Traces without effective lock events (successful takes or gives). -/
def lockFree (tr : List Ev) : Bool := tr.all evLockNeutral

/-- Traces without any take/give events at all. -/
def noLockEvents (tr : List Ev) : Bool := tr.all evNoLock

/-- Traces whose take/give events all concern manager-mutex instances. -/
def mgrOnly (tr : List Ev) : Bool := tr.all evMgrOnly

/-- Traces whose take/give events all concern the settings mutex. -/
def cfgOnly (tr : List Ev) : Bool := tr.all evCfgOnly

/-! ## Concrete instances used by individual claims -/

/-- An environment on which every `sd_card_init` attempt fails: attempt 1
fails to mount, attempts 2 and 3 mount but `xSemaphoreCreateMutex`
returns NULL. -/
def c2FailEnv : InitEnv := fun attempt =>
  if attempt = 1 then ⟨EspErr.ESP_OK, EspErr.ESP_FAIL, ⟨15523840, 512⟩, true⟩
  else ⟨EspErr.ESP_OK, EspErr.ESP_OK, ⟨15523840, 512⟩, false⟩

/-- An all-success initialization environment. -/
def c8InitEnv : InitEnv := fun _ =>
  ⟨EspErr.ESP_OK, EspErr.ESP_OK, ⟨15523840, 512⟩, true⟩

/-- The state reached by a successful `sd_card_init` followed by a
`sd_card_is_initialized` whose mount-point probe fails (lazy demotion). -/
def c8DemotedState : MgrState :=
  (sd_card_is_initialized false (sd_card_init c8InitEnv mgrState0).2.1).2.1

/-- Same construction as `c8DemotedState`, private to the append claim. -/
def c9DemotedState : MgrState :=
  (sd_card_is_initialized false
    (sd_card_init (fun _ => ⟨EspErr.ESP_OK, EspErr.ESP_OK, ⟨15523840, 512⟩, true⟩)
      mgrState0).2.1).2.1

/-- A mounted manager state for the lock-identity claim. -/
def c10MountedState : MgrState :=
  (sd_card_init (fun _ => ⟨EspErr.ESP_OK, EspErr.ESP_OK, ⟨15523840, 512⟩, true⟩)
    mgrState0).2.1

/-- An all-success write environment. -/
def c10WriteEnv : WriteEnv :=
  ⟨true, ⟨true, true, true⟩, true, true, true, true, true,
   fun _ => ⟨true, true, fun _ => ⟨EspErr.ESP_OK, EspErr.ESP_OK, ⟨15523840, 512⟩, true⟩, true⟩⟩

/-- A configuration state holding a parsable settings file. -/
def c10CfgState : CfgState :=
  { mutexCreated := true, fileContent := some (jsonOfFields 5 false false),
    current := currentSettings0 }

/-- Record used by the round-trip counterexample: in-range sensitivity,
demo mode off, feature screen on, all arcs visible. -/
def c1CexRecord : touch_settings_t :=
  { touch_sensitivity_level := 5, demo_mode_enabled := false,
    screen3_enabled := true,
    screen1_arcs_enabled := List.replicate SCREEN1_ARCS_COUNT true,
    screen2_arcs_enabled := List.replicate SCREEN2_ARCS_COUNT true }

/-- Configuration state whose in-memory settings are the counterexample
record itself (so the save really is "save the current settings"). -/
def c1CexState : CfgState :=
  { mutexCreated := true, fileContent := none, current := c1CexRecord }

/-- The everything-succeeds configuration environment. -/
def cfgEnvOk : CfgEnv := ⟨true, true, true, true⟩

/-- A parsable settings file whose sensitivity is far outside `[MIN,MAX]`. -/
def c7CexState : CfgState :=
  { mutexCreated := true, fileContent := some (jsonOfFields 999 false false),
    current := currentSettings0 }

/-- A record satisfying the amended round-trip side conditions (feature
screen off, so the demo flag survives the parser overscan). -/
def c1WitnessRecord : touch_settings_t :=
  { touch_sensitivity_level := 5, demo_mode_enabled := true,
    screen3_enabled := false,
    screen1_arcs_enabled := List.replicate SCREEN1_ARCS_COUNT true,
    screen2_arcs_enabled := List.replicate SCREEN2_ARCS_COUNT true }

/-- Configuration state whose current settings are `c1WitnessRecord`. -/
def c1WitnessState : CfgState :=
  { mutexCreated := true, fileContent := none, current := c1WitnessRecord }

/-- A stability environment with exactly 7 fully successful iterations. -/
def c6WitnessEnv : Nat → StabIterEnv := fun i =>
  if i < 7 then ⟨true, 19, true, stabilityPayload⟩ else ⟨false, 0, false, []⟩

/-- A mounted manager state (any state value; reachability not needed for
these claims). -/
def mountedState : MgrState :=
  { initialized := true, card := some ⟨15523840, 512⟩, mutex := some 0,
    nextMutexId := 1 }

end Dashboard

namespace Dashboard

open EspErr

/-! # Theorems -/

theorem lockRun_append (h : Option (List Lock)) (a b : List Ev) :
    lockRun h (a ++ b) = lockRun (lockRun h a) b :=
  List.foldl_append ..

theorem lockRun_of_lockFree {tr : List Ev} (hf : lockFree tr = true)
    (h : Option (List Lock)) : lockRun h tr = h := by
  induction tr generalizing h with
  | nil => rfl
  | cons e rest ih =>
    simp only [lockFree, List.all_cons, Bool.and_eq_true] at hf
    have hstep : lockStep h e = h := by
      cases h with
      | none => rfl
      | some held =>
        cases e <;> try rfl
        case take l ok =>
          cases ok with
          | false => rfl
          | true => exact Bool.noConfusion hf.1
        case give l => exact Bool.noConfusion hf.1
    show lockRun (lockStep h e) rest = h
    rw [hstep]
    exact ih hf.2 h

theorem lockFree_cons {e : Ev} {tr : List Ev} :
    lockFree (e :: tr) = (evLockNeutral e && lockFree tr) := List.all_cons ..

theorem lockFree_append {a b : List Ev} :
    lockFree (a ++ b) = (lockFree a && lockFree b) := List.all_append

theorem noLock_cons {e : Ev} {tr : List Ev} :
    noLockEvents (e :: tr) = (evNoLock e && noLockEvents tr) := List.all_cons ..

theorem mgrOnly_cons {e : Ev} {tr : List Ev} :
    mgrOnly (e :: tr) = (evMgrOnly e && mgrOnly tr) := List.all_cons ..

theorem cfgOnly_cons {e : Ev} {tr : List Ev} :
    cfgOnly (e :: tr) = (evCfgOnly e && cfgOnly tr) := List.all_cons ..

theorem cfgOnly_append {a b : List Ev} :
    cfgOnly (a ++ b) = (cfgOnly a && cfgOnly b) := List.all_append

/-- **C2** (code_bug evaluation).  On an environment where attempt 1 fails
to mount and attempts 2 and 3 mount but fail to create the mutex, all
three attempts are made and all of them fail (the card ends up
uninitialized with no handle and no lock), yet `sd_card_init` returns
`ESP_OK` — not the last observed error — because the local `ret` still
holds the successful mount result when lock creation fails.  This
contradicts the code's own `return ret; // Return the last error` and its
"All SD card initialization attempts failed" log. -/
theorem sd_card_init_swallows_last_error :
    (sd_card_init c2FailEnv mgrState0).1 = EspErr.ESP_OK ∧
    (sd_card_init c2FailEnv mgrState0).2.1.initialized = false ∧
    (sd_card_init c2FailEnv mgrState0).2.1.card = none ∧
    (sd_card_init c2FailEnv mgrState0).2.1.mutex = none ∧
    mountCalls (sd_card_init c2FailEnv mgrState0).2.2 = 3 := by
  decide

theorem stabIterTrace_delay_count (i : Nat) (e : StabIterEnv) :
    (stabIterTrace i e).countP isDelay = 1 := by
  unfold stabIterTrace
  split
  · split <;> simp [List.countP_append, List.countP_cons, isDelay, List.countP_nil]
  · simp [List.countP_append, List.countP_cons, isDelay, List.countP_nil]

theorem stab_flatMap_delay_count (env : Nat → StabIterEnv) (n : Nat) :
    (((List.range n).flatMap fun i => stabIterTrace i (env i)).countP isDelay)
      = n := by
  induction n with
  | zero => rfl
  | succ n ih =>
    rw [List.range_succ, List.flatMap_append, List.countP_append, ih]
    simp [stabIterTrace_delay_count]

theorem stab_remove_mem (env : Nat → StabIterEnv) (i : Nat) (hi : i < 10)
    (hw : (env i).openW = true) :
    Ev.removeE (stabFileName i) ∈
      ((List.range 10).flatMap fun j => stabIterTrace j (env j)) := by
  refine List.mem_flatMap.mpr ⟨i, List.mem_range.mpr hi, ?_⟩
  unfold stabIterTrace
  rw [hw]
  split
  · split <;> simp
  · simp_all

set_option linter.unnecessarySeqFocus false in
/-- **C6**.  When the card is mounted, `sd_card_stability_test` runs
exactly 10 iterations (one inter-iteration delay each), removes the temp
file of every iteration that created one regardless of that iteration's
outcome, and classifies the success rate (successes × 10 percent) as
`ESP_OK`/Stable iff ≥ 80, `ESP_ERR_INVALID_RESPONSE`/UsableDegraded iff in
[50, 80), and `ESP_FAIL`/Unusable iff < 50 — so 9/10 is Stable, 7/10 is
UsableDegraded, 2/10 is Unusable; when not mounted it fails with
`ESP_ERR_INVALID_STATE`. -/
theorem sd_card_stability_test_spec (env : Nat → StabIterEnv) (st : MgrState) :
    (st.initialized = true → st.card.isSome →
      ((sd_card_stability_test env st).1 = EspErr.ESP_OK ↔
        80 ≤ stabSuccessCount env * 10) ∧
      ((sd_card_stability_test env st).1 = EspErr.ESP_ERR_INVALID_RESPONSE ↔
        50 ≤ stabSuccessCount env * 10 ∧ stabSuccessCount env * 10 < 80) ∧
      ((sd_card_stability_test env st).1 = EspErr.ESP_FAIL ↔
        stabSuccessCount env * 10 < 50) ∧
      (stabSuccessCount env = 9 →
        (sd_card_stability_test env st).1 = EspErr.ESP_OK) ∧
      (stabSuccessCount env = 7 →
        (sd_card_stability_test env st).1 = EspErr.ESP_ERR_INVALID_RESPONSE) ∧
      (stabSuccessCount env = 2 →
        (sd_card_stability_test env st).1 = EspErr.ESP_FAIL) ∧
      ((sd_card_stability_test env st).2.countP isDelay = 10) ∧
      (∀ i, i < 10 → (env i).openW = true →
        Ev.removeE (stabFileName i) ∈ (sd_card_stability_test env st).2)) ∧
    ((st.initialized = false ∨ st.card = none) →
      (sd_card_stability_test env st).1 = EspErr.ESP_ERR_INVALID_STATE) := by
  constructor
  · intro hi hc
    have hguard : ¬ (¬ st.initialized = true ∨ st.card = none) := by
      rcases hsc : st.card with _ | c
      · rw [hsc] at hc; simp at hc
      · simp [hi, hsc]
    have hr1 : (sd_card_stability_test env st).1 =
        (if 80 ≤ stabSuccessCount env * 10 then EspErr.ESP_OK
         else if 50 ≤ stabSuccessCount env * 10 then
           EspErr.ESP_ERR_INVALID_RESPONSE
         else EspErr.ESP_FAIL) := by
      unfold sd_card_stability_test
      rw [if_neg hguard]
    have hr2 : (sd_card_stability_test env st).2 =
        (List.range 10).flatMap fun i => stabIterTrace i (env i) := by
      unfold sd_card_stability_test
      rw [if_neg hguard]
    rw [hr1, hr2]
    refine ⟨?_, ?_, ?_, ?_, ?_, ?_, ?_, ?_⟩
    · by_cases h80 : 80 ≤ stabSuccessCount env * 10
      · simp [h80]
      · by_cases h50 : 50 ≤ stabSuccessCount env * 10 <;> simp [h80, h50]
    · by_cases h80 : 80 ≤ stabSuccessCount env * 10 <;>
        by_cases h50 : 50 ≤ stabSuccessCount env * 10 <;>
        simp [h80, h50] <;> omega
    · by_cases h80 : 80 ≤ stabSuccessCount env * 10 <;>
        by_cases h50 : 50 ≤ stabSuccessCount env * 10 <;>
        simp [h80, h50] <;> omega
    · intro h; rw [h]; simp
    · intro h; rw [h]; simp
    · intro h; rw [h]; simp
    · exact stab_flatMap_delay_count env 10
    · intro i hlt hw; exact stab_remove_mem env i hlt hw
  · intro hbad
    unfold sd_card_stability_test
    rw [if_pos]
    rcases hbad with h | h
    · left; simp [h]
    · right; exact h

/-- Witness for the hypotheses of `sd_card_stability_test_spec`: a mounted
state and an environment with exactly 7 successful iterations, and an
unmounted state. -/
theorem sd_card_stability_test_spec_witness :
    ((sd_card_stability_test c6WitnessEnv mountedState).1
      = EspErr.ESP_ERR_INVALID_RESPONSE) ∧
    ((sd_card_stability_test c6WitnessEnv mgrState0).1
      = EspErr.ESP_ERR_INVALID_STATE) := by
  constructor
  · exact ((sd_card_stability_test_spec c6WitnessEnv mountedState).1 rfl
      rfl).2.2.2.2.1 (by decide)
  · exact (sd_card_stability_test_spec c6WitnessEnv mgrState0).2 (Or.inl rfl)

theorem infoProbeHit_isSome_iff (env : InfoEnv) :
    (infoProbeHit env).isSome ↔ ∃ f < 3, ∃ r < 3, env.probe f r = true := by
  unfold infoProbeHit
  rw [List.find?_isSome]
  constructor
  · rintro ⟨p, hp, hprob⟩
    rcases List.mem_flatMap.mp hp with ⟨f, hf, hp2⟩
    rcases List.mem_map.mp hp2 with ⟨r, hr, rfl⟩
    exact ⟨f, List.mem_range.mp hf, r, List.mem_range.mp hr, hprob⟩
  · rintro ⟨f, hf, r, hr, hprob⟩
    exact ⟨(f, r),
      List.mem_flatMap.mpr ⟨f, List.mem_range.mpr hf,
        List.mem_map.mpr ⟨r, List.mem_range.mpr hr, rfl⟩⟩, hprob⟩

/-- **C4**.  When the liveness check passes, `sd_card_get_info` returns
`ESP_OK` — never an error — and the free-space estimate through a non-null
`free_bytes` pointer is 85% of the total capacity when some probe file
(3 candidates × 3 retries) writes and reads back the payload, and exactly 0
when every probe fails.  The overflow bound makes the C `uint64_t`
arithmetic exact. -/
theorem sd_card_get_info_ok (env : InfoEnv) (st : MgrState) (c : Card)
    (wantTotal : Bool)
    (hi : st.initialized = true) (hc : st.card = some c)
    (hm : st.mutex.isSome = true) (hp : env.probeOk = true)
    (hbound : c.capacity * c.sector_size * 85 < 2 ^ 64) :
    (sd_card_get_info env st wantTotal true).1 = EspErr.ESP_OK ∧
    (sd_card_get_info env st wantTotal true).2.2.1 =
      some (if ∃ f < 3, ∃ r < 3, env.probe f r = true
            then c.capacity * c.sector_size * 85 / 100 else 0) := by
  have htot : c.capacity * c.sector_size < 2 ^ 64 := by
    calc c.capacity * c.sector_size
        ≤ c.capacity * c.sector_size * 85 := Nat.le_mul_of_pos_right _ (by omega)
      _ < 2 ^ 64 := hbound
  have hmod1 : c.capacity * c.sector_size % 2 ^ 64 = c.capacity * c.sector_size :=
    Nat.mod_eq_of_lt htot
  have hmod2 : c.capacity * c.sector_size * 85 % 2 ^ 64 =
      c.capacity * c.sector_size * 85 := Nat.mod_eq_of_lt hbound
  have halive : sd_card_is_initialized env.probeOk st =
      (true, st, [Ev.openDirE "/sdcard" true]) := by
    unfold sd_card_is_initialized
    rw [if_neg, if_pos hp]
    rw [hi, hc]
    rcases hmu : st.mutex with _ | m
    · rw [hmu] at hm; simp at hm
    · simp
  unfold sd_card_get_info
  rw [halive]
  simp only [Bool.true_eq_false, not_true_eq_false, if_false, ite_false,
    Bool.not_true, reduceIte]
  constructor
  · trivial
  · by_cases hhit : (infoProbeHit env).isSome
    · rw [if_pos ((infoProbeHit_isSome_iff env).mp hhit)]
      cases wantTotal with
      | true =>
        simp only [hc, hhit, if_true, ite_true]
        by_cases h0 : c.capacity * c.sector_size % 2 ^ 64 > 0
        · simp only [h0, if_pos, ite_true, hmod1, hmod2, ite_self]
        · rw [hmod1] at h0
          have hz : c.capacity * c.sector_size = 0 := by omega
          simp [h0, hc, hz]
      | false =>
        simp only [hc, hhit, if_true, ite_true, hmod1, hmod2]
    · rw [if_neg (fun h => hhit ((infoProbeHit_isSome_iff env).mpr h))]
      simp only [hhit, ite_false, if_neg]
      simp [Bool.not_eq_true] at hhit
      simp [hhit]

/-- Witness for `sd_card_get_info_ok`: a mounted state; one probe file
succeeds on its second retry. -/
theorem sd_card_get_info_ok_witness :
    (sd_card_get_info ⟨true, fun f r => f == 1 && r == 1⟩ mountedState
      true true).1 = EspErr.ESP_OK ∧
    (sd_card_get_info ⟨true, fun f r => f == 1 && r == 1⟩ mountedState
      true true).2.2.1 =
      some (if ∃ f < 3, ∃ r < 3, (fun f r => f == 1 && r == 1 : Nat → Nat → Bool) f r = true
            then 15523840 * 512 * 85 / 100 else 0) :=
  sd_card_get_info_ok ⟨true, fun f r => f == 1 && r == 1⟩ mountedState
    ⟨15523840, 512⟩ true rfl rfl rfl rfl (by norm_num)

theorem settings_from_json_fields_roundtrip (v : Int) (h1 : 1 ≤ v)
    (h2 : v ≤ 10) (d s : Bool) :
    settings_from_json_fields ((jsonOfFields v d s).take 255)
      = some (v, d || s, s) := by
  interval_cases v <;> cases d <;> cases s <;> decide

theorem settings_save_current_unchanged (env : CfgEnv) (st : CfgState)
    (s : touch_settings_t) : (settings_save env st s).1.current = st.current := by
  unfold settings_save s_example_write_file
  split_ifs <;> rfl

/-- **C1** (amended).  Save followed by load round-trips the three
persisted fields when the record's feature-screen flag implies its demo
flag (otherwise the parser's `strstr` overscan turns the demo flag on),
and the arc-visibility arrays — which are never serialized — survive only
because the load leaves the in-memory arrays untouched, so they must
already match the record. -/
theorem settings_save_load_roundtrip (st : CfgState) (r : touch_settings_t)
    (env : CfgEnv)
    (hmu : st.mutexCreated = true)
    (h1 : MIN_TOUCH_SENSITIVITY ≤ r.touch_sensitivity_level)
    (h2 : r.touch_sensitivity_level ≤ MAX_TOUCH_SENSITIVITY)
    (h3 : r.screen3_enabled = true → r.demo_mode_enabled = true)
    (ha1 : st.current.screen1_arcs_enabled = r.screen1_arcs_enabled)
    (ha2 : st.current.screen2_arcs_enabled = r.screen2_arcs_enabled)
    (e1 : env.takeSaveOk = true) (e2 : env.writeOpenOk = true)
    (e3 : env.takeLoadOk = true) :
    (settings_load env (settings_save env st r).1).1 = EspErr.ESP_OK ∧
    (settings_load env (settings_save env st r).1).2.1.current = r := by
  have hsave : (settings_save env st r).1 =
      { st with fileContent := some (settings_to_json r) } := by
    unfold settings_save s_example_write_file
    rw [if_neg (by simp [hmu]), if_neg (by simp [e1]), if_pos (by simp [e2])]
  have hbuf : settings_from_json_fields ((settings_to_json r).take 255) =
      some (r.touch_sensitivity_level,
        r.demo_mode_enabled || r.screen3_enabled, r.screen3_enabled) :=
    settings_from_json_fields_roundtrip _
      (by simpa [MIN_TOUCH_SENSITIVITY] using h1)
      (by simpa [MAX_TOUCH_SENSITIVITY] using h2) _ _
  have hdemo : (r.demo_mode_enabled || r.screen3_enabled) = r.demo_mode_enabled := by
    cases hs : r.screen3_enabled
    · simp
    · simp [h3 hs]
  have hkey : ∀ cur : touch_settings_t,
      cur.screen1_arcs_enabled = r.screen1_arcs_enabled →
      cur.screen2_arcs_enabled = r.screen2_arcs_enabled →
      ({ cur with
          touch_sensitivity_level := r.touch_sensitivity_level,
          demo_mode_enabled := r.demo_mode_enabled || r.screen3_enabled,
          screen3_enabled := r.screen3_enabled } : touch_settings_t) = r := by
    intro cur hc1 hc2
    cases cur
    cases r
    simp_all
  rw [hsave]
  unfold settings_load
  rw [if_neg (by simp [hmu])]
  rw [if_neg (by simp [e3])]
  unfold settings_from_json
  dsimp only
  rw [hbuf]
  exact ⟨rfl, hkey st.current ha1 ha2⟩

/-- Witness for `settings_save_load_roundtrip`: saving the current
settings (demo on, feature screen off) and reloading yields them back. -/
theorem settings_save_load_roundtrip_witness :
    (settings_load cfgEnvOk
      (settings_save cfgEnvOk c1WitnessState c1WitnessRecord).1).1
        = EspErr.ESP_OK ∧
    (settings_load cfgEnvOk
      (settings_save cfgEnvOk c1WitnessState c1WitnessRecord).1).2.1.current
        = c1WitnessRecord :=
  settings_save_load_roundtrip c1WitnessState c1WitnessRecord cfgEnvOk
    rfl (by decide) (by decide) (by decide) rfl rfl rfl rfl rfl

/-- **C1** (counterexample).  The claim as stated is false: saving the
in-range record with demo mode off and the feature screen on succeeds and
the following load succeeds, but the parser's `strstr(demo_ptr, "true")`
scans past the demo value into the later `screen3_enabled:true`, so the
reloaded record has demo mode on — not equal to the original. -/
theorem settings_save_load_roundtrip_cex :
    ((settings_save cfgEnvOk c1CexState c1CexRecord).1.fileContent
      = some (settings_to_json c1CexRecord)) ∧
    (settings_load cfgEnvOk
      (settings_save cfgEnvOk c1CexState c1CexRecord).1).1 = EspErr.ESP_OK ∧
    c1CexRecord.demo_mode_enabled = false ∧
    (settings_load cfgEnvOk
      (settings_save cfgEnvOk c1CexState c1CexRecord).1).2.1.current.demo_mode_enabled
      = true ∧
    (settings_load cfgEnvOk
      (settings_save cfgEnvOk c1CexState c1CexRecord).1).2.1.current
      ≠ c1CexRecord ∧
    MIN_TOUCH_SENSITIVITY ≤ c1CexRecord.touch_sensitivity_level ∧
    c1CexRecord.touch_sensitivity_level ≤ MAX_TOUCH_SENSITIVITY := by
  decide

/-- **C5**.  `settings_load` on an absent settings file returns
`ESP_ERR_NOT_FOUND`, installs the defaults in memory, and persists them,
so that an immediately following load returns `ESP_OK` with the same
defaults. -/
theorem settings_load_absent_bootstrap (st : CfgState) (env : CfgEnv)
    (hf : st.fileContent = none)
    (e0 : env.mutexCreateOk = true) (e1 : env.takeLoadOk = true)
    (e2 : env.takeSaveOk = true) (e3 : env.writeOpenOk = true) :
    (settings_load env st).1 = EspErr.ESP_ERR_NOT_FOUND ∧
    (settings_load env st).2.1.current = settings_init_defaults ∧
    (settings_load env st).2.1.fileContent =
      some (settings_to_json settings_init_defaults) ∧
    (settings_load env (settings_load env st).2.1).1 = EspErr.ESP_OK ∧
    (settings_load env (settings_load env st).2.1).2.1.current
      = settings_init_defaults := by
  have hst2 : (settings_load env st).2.1 =
      { mutexCreated := true,
        fileContent := some (settings_to_json settings_init_defaults),
        current := settings_init_defaults } ∧
      (settings_load env st).1 = EspErr.ESP_ERR_NOT_FOUND := by
    unfold settings_load
    rw [if_neg (by simp [e0]), if_neg (by simp [e1])]
    dsimp only
    rw [hf]
    dsimp only
    unfold settings_save s_example_write_file
    rw [if_neg (by simp), if_neg (by simp [e2]), if_pos (by simp [e3])]
    exact ⟨rfl, rfl⟩
  have h := settings_save_load_roundtrip
    ({ mutexCreated := true,
       fileContent := some (settings_to_json settings_init_defaults),
       current := settings_init_defaults } : CfgState)
    settings_init_defaults env rfl (by decide) (by decide) (by decide)
    rfl rfl e2 e3 e1
  have hsv : (settings_save env
      ({ mutexCreated := true,
         fileContent := some (settings_to_json settings_init_defaults),
         current := settings_init_defaults } : CfgState)
      settings_init_defaults).1 =
      { mutexCreated := true,
        fileContent := some (settings_to_json settings_init_defaults),
        current := settings_init_defaults } := by
    unfold settings_save s_example_write_file
    rw [if_neg (by simp), if_neg (by simp [e2]), if_pos (by simp [e3])]
  rw [hsv] at h
  exact ⟨hst2.2, by rw [hst2.1], by rw [hst2.1], by rw [hst2.1]; exact h.1,
    by rw [hst2.1]; exact h.2⟩

/-- Witness for `settings_load_absent_bootstrap`: the first-boot state. -/
theorem settings_load_absent_bootstrap_witness :
    (settings_load cfgEnvOk cfgState0).1 = EspErr.ESP_ERR_NOT_FOUND ∧
    (settings_load cfgEnvOk (settings_load cfgEnvOk cfgState0).2.1).1
      = EspErr.ESP_OK :=
  ⟨(settings_load_absent_bootstrap cfgState0 cfgEnvOk rfl rfl rfl rfl rfl).1,
   (settings_load_absent_bootstrap cfgState0 cfgEnvOk rfl rfl rfl rfl
      rfl).2.2.2.1⟩

/-- **C7** (counterexample).  A parsable settings file with sensitivity 999
is accepted verbatim by `settings_load`: the load reports `ESP_OK` and the
in-memory record holds an out-of-range sensitivity (`settings_validate`
rejects it) — no range validation happens on the load path. -/
theorem settings_load_out_of_range_cex :
    (settings_load cfgEnvOk c7CexState).1 = EspErr.ESP_OK ∧
    (settings_load cfgEnvOk c7CexState).2.1.current.touch_sensitivity_level
      = 999 ∧
    settings_validate (settings_load cfgEnvOk c7CexState).2.1.current
      = false ∧
    MAX_TOUCH_SENSITIVITY < 999 := by
  decide

/-- **C7** (amended).  Every non-`ESP_OK` outcome of `settings_load`
(mutex-creation failure, lock timeout, parse rejection, absent file)
leaves the in-memory record equal to the defaults, `settings_save` never
modifies the in-memory record, and the defaults satisfy
`settings_validate`; but an `ESP_OK` load installs whatever sensitivity
the file contains (see the counterexample). -/
theorem settings_failure_leaves_defaults (env : CfgEnv) (st : CfgState)
    (s : touch_settings_t) :
    ((settings_load env st).1 ≠ EspErr.ESP_OK →
      (settings_load env st).2.1.current = settings_init_defaults) ∧
    (settings_save env st s).1.current = st.current ∧
    settings_validate settings_init_defaults = true := by
  refine ⟨?_, settings_save_current_unchanged env st s, by decide⟩
  intro hne
  unfold settings_load at hne ⊢
  by_cases hmc : (¬ st.mutexCreated = true ∧ ¬ env.mutexCreateOk = true)
  · rw [if_pos hmc]
  · rw [if_neg hmc] at hne ⊢
    by_cases htl : env.takeLoadOk = true
    · rw [if_neg (by simp [htl])] at hne ⊢
      dsimp only
      rcases hfc : st.fileContent with _ | content
      · dsimp only at hne ⊢
        exact settings_save_current_unchanged env _ _
      · dsimp only at hne ⊢
        rcases hpj : settings_from_json (content.take 255) st.current
          with _ | upd
        · rfl
        · rw [hfc] at hne
          dsimp only at hne
          rw [hpj] at hne
          exact absurd rfl hne
    · rw [if_pos (by simp [htl])]

/-- Witness for `settings_failure_leaves_defaults`: a load whose mutex
wait times out leaves the defaults in memory. -/
theorem settings_failure_leaves_defaults_witness :
    (settings_load ⟨true, false, true, true⟩ cfgState0).2.1.current
      = settings_init_defaults :=
  (settings_failure_leaves_defaults ⟨true, false, true, true⟩ cfgState0
    currentSettings0).1 (by decide)

theorem all_imp_ev {p q : Ev → Bool} (h : ∀ e, p e = true → q e = true)
    (tr : List Ev) (hp : tr.all p = true) : tr.all q = true := by
  rw [List.all_eq_true] at hp ⊢
  exact fun e he => h e (hp e he)

theorem lockFree_of_noLock {tr : List Ev} (h : noLockEvents tr = true) :
    lockFree tr = true := by
  refine all_imp_ev ?_ tr h
  intro e
  cases e <;> simp [evNoLock, evLockNeutral]

theorem mgrOnly_of_noLock {tr : List Ev} (h : noLockEvents tr = true) :
    mgrOnly tr = true := by
  refine all_imp_ev ?_ tr h
  intro e
  cases e <;> simp [evNoLock, evMgrOnly]

theorem noLock_append {a b : List Ev} :
    noLockEvents (a ++ b) = (noLockEvents a && noLockEvents b) :=
  List.all_append

theorem mgrOnly_append {a b : List Ev} :
    mgrOnly (a ++ b) = (mgrOnly a && mgrOnly b) :=
  List.all_append

theorem sd_card_deinit_noLock (st : MgrState) :
    noLockEvents (sd_card_deinit st).2.2 = true := by
  unfold sd_card_deinit
  rcases hc : st.card with _ | c <;> rcases hm : st.mutex with _ | m <;>
    simp [hc, hm, noLockEvents, evNoLock]

theorem sd_card_full_deinit_noLock (st : MgrState) :
    noLockEvents (sd_card_full_deinit st).2.2 = true := by
  unfold sd_card_full_deinit
  rw [noLock_append, sd_card_deinit_noLock]
  rfl

theorem initLoop_noLock (env : InitEnv) (fuel : Nat) :
    ∀ st attempt lastRet,
      noLockEvents (initLoop env st attempt fuel lastRet).2.2 = true := by
  induction fuel with
  | zero => intro st a r; rfl
  | succ fuel ih =>
    intro st a r
    show noLockEvents (initLoop env st a (fuel + 1) r).2.2 = true
    rw [initLoop]
    split_ifs <;>
      simp only [noLock_cons, noLock_append, List.cons_append,
        List.nil_append, List.append_assoc, Bool.and_eq_true] <;>
      and_intros <;>
      first
        | rfl
        | exact sd_card_full_deinit_noLock _
        | exact ih _ _ _

theorem sd_card_init_noLock (env : InitEnv) (st : MgrState) :
    noLockEvents (sd_card_init env st).2.2 = true := by
  rw [sd_card_init]
  split_ifs <;>
    simp only [noLock_cons, noLock_append, List.cons_append,
      List.nil_append, List.append_assoc, Bool.and_eq_true] <;>
    and_intros <;>
    first
      | rfl
      | exact sd_card_full_deinit_noLock _
      | exact initLoop_noLock _ _ _ _ _

theorem sd_card_is_initialized_noLock (p : Bool) (st : MgrState) :
    noLockEvents (sd_card_is_initialized p st).2.2 = true := by
  unfold sd_card_is_initialized
  split_ifs <;> rfl

theorem ensure_dir_exists_noLock (env : DirEnv) (path : String) :
    noLockEvents (ensure_dir_exists env path).2 = true := by
  unfold ensure_dir_exists
  split_ifs <;> first
  | rfl
  | (rcases parentDir path with _ | d <;> rfl)

theorem writeDiagTrace_noLock (env : WriteEnv) :
    noLockEvents (writeDiagTrace env) = true := by
  unfold writeDiagTrace
  rw [noLock_append]
  split_ifs <;> rfl

theorem lockRun_cons {h : Option (List Lock)} {e : Ev} {tr : List Ev} :
    lockRun h (e :: tr) = lockRun (lockStep h e) tr := rfl

theorem lockRun_seq {h₁ h₂ h₃ : Option (List Lock)} {a b : List Ev}
    (ha : lockRun h₁ a = h₂) (hb : lockRun h₂ b = h₃) :
    lockRun h₁ (a ++ b) = h₃ := by
  rw [lockRun_append, ha, hb]

theorem lockRun_neutral_seg {tr : List Ev} (h : noLockEvents tr = true)
    (s : Option (List Lock)) : lockRun s tr = s :=
  lockRun_of_lockFree (lockFree_of_noLock h) s

theorem lockRun_give_self (l : Lock) :
    lockRun (some [l]) [Ev.give l] = some [] := by
  show lockStep (some [l]) (Ev.give l) = some []
  simp [lockStep, List.erase_cons_head]

theorem lockRun_single_neutral (e : Ev) (he : evLockNeutral e = true)
    (s : List Lock) : lockRun (some s) [e] = some s := by
  refine lockRun_of_lockFree ?_ _
  rw [lockFree_cons, he]
  rfl

/-- Lock and lock-identity discipline of the write retry loop: started
holding manager mutex `m`, the loop either ends still holding a manager
mutex (`opened`/`failedOpen`) or has fully released (`err`), and it only
ever touches manager mutexes. -/
theorem writeOpenLoop_lock (path : String) (renv : Nat → WriteRetryEnv)
    (fuel : Nat) :
    ∀ st m retry,
      (match writeOpenLoop path renv st m retry fuel with
       | .opened _ m' tr =>
         lockRun (some [Lock.mgr m]) tr = some [Lock.mgr m'] ∧ mgrOnly tr = true
       | .failedOpen _ m' tr =>
         lockRun (some [Lock.mgr m]) tr = some [Lock.mgr m'] ∧ mgrOnly tr = true
       | .err _ _ tr =>
         lockRun (some [Lock.mgr m]) tr = some [] ∧ mgrOnly tr = true) := by
  induction fuel with
  | zero => intro st m retry; exact ⟨rfl, rfl⟩
  | succ fuel ih =>
    intro st m retry
    simp only [writeOpenLoop]
    by_cases h0 : retry = 0
    · rw [if_pos h0]
      by_cases hf : (renv retry).fopenOk = true
      · rw [if_pos hf]
        exact ⟨rfl, rfl⟩
      · rw [if_neg hf]
        have h := ih st m (retry + 1)
        rcases hrec : writeOpenLoop path renv st m (retry + 1) fuel with
          ⟨st', m', tr⟩ | ⟨st', m', tr⟩ | ⟨e', st', tr⟩ <;> rw [hrec] at h <;>
          dsimp only [OpenRes.prepend] <;>
          refine ⟨lockRun_seq (lockRun_single_neutral _ (by rfl) _) h.1, ?_⟩ <;>
          · simp only [mgrOnly_append, Bool.and_eq_true]
            exact ⟨rfl, h.2⟩
    · rw [if_neg h0]
      have hIn : noLockEvents
          (sd_card_is_initialized (renv retry).probeOk st).2.2 = true :=
        sd_card_is_initialized_noLock _ _
      by_cases hp : (sd_card_is_initialized (renv retry).probeOk st).1 = true
      · rw [if_pos hp]
        by_cases hf : (renv retry).fopenOk = true
        · rw [if_pos hf]
          refine ⟨lockRun_seq (lockRun_seq (lockRun_single_neutral _ (by rfl) _)
            (lockRun_neutral_seg hIn _)) (lockRun_single_neutral _ (by rfl) _), ?_⟩
          simp only [mgrOnly_append, Bool.and_eq_true]
          exact ⟨⟨rfl, mgrOnly_of_noLock hIn⟩, rfl⟩
        · rw [if_neg hf]
          have h := ih (sd_card_is_initialized (renv retry).probeOk st).2.1
            m (retry + 1)
          rcases hrec : writeOpenLoop path renv
              (sd_card_is_initialized (renv retry).probeOk st).2.1 m
              (retry + 1) fuel with
            ⟨st', m', tr⟩ | ⟨st', m', tr⟩ | ⟨e', st', tr⟩ <;> rw [hrec] at h <;>
            dsimp only [OpenRes.prepend] <;>
            refine ⟨lockRun_seq (lockRun_seq (lockRun_seq
              (lockRun_single_neutral _ (by rfl) _) (lockRun_neutral_seg hIn _))
              (lockRun_single_neutral _ (by rfl) _)) h.1, ?_⟩ <;>
            · simp only [mgrOnly_append, Bool.and_eq_true]
              exact ⟨⟨⟨rfl, mgrOnly_of_noLock hIn⟩, rfl⟩, h.2⟩
      · rw [if_neg hp]
        have hRe : noLockEvents
            (sd_card_init (renv retry).reinit
              (sd_card_is_initialized (renv retry).probeOk st).2.1).2.2 = true :=
          sd_card_init_noLock _ _
        have hGive : lockRun (some [Lock.mgr m])
            (([Ev.delay (100 + retry * 100)] ++
                (sd_card_is_initialized (renv retry).probeOk st).2.2) ++
              [Ev.give (Lock.mgr m)]) = some [] :=
          lockRun_seq (lockRun_seq (lockRun_single_neutral _ (by rfl) _)
            (lockRun_neutral_seg hIn _)) (lockRun_give_self _)
        by_cases hr : (sd_card_init (renv retry).reinit
            (sd_card_is_initialized (renv retry).probeOk st).2.1).1 ≠ ESP_OK
        · rw [if_pos hr]
          refine ⟨lockRun_seq hGive (lockRun_neutral_seg hRe _), ?_⟩
          simp only [mgrOnly_append, Bool.and_eq_true]
          exact ⟨⟨⟨rfl, mgrOnly_of_noLock hIn⟩, rfl⟩, mgrOnly_of_noLock hRe⟩
        · rw [if_neg hr]
          rcases hm2 : (sd_card_init (renv retry).reinit
              (sd_card_is_initialized (renv retry).probeOk st).2.1).2.1.mutex
            with _ | m' <;> dsimp only
          · refine ⟨lockRun_seq hGive (lockRun_neutral_seg hRe _), ?_⟩
            simp only [mgrOnly_append, Bool.and_eq_true]
            exact ⟨⟨⟨rfl, mgrOnly_of_noLock hIn⟩, rfl⟩, mgrOnly_of_noLock hRe⟩
          · by_cases hrt : (renv retry).retakeOk = true
            · rw [if_pos hrt]
              by_cases hf : (renv retry).fopenOk = true
              · rw [if_pos hf]
                refine ⟨lockRun_seq (lockRun_seq hGive
                  (lockRun_neutral_seg hRe _))
                  (show lockRun (some [])
                      [Ev.take (Lock.mgr m') true, Ev.fopenE path "w" true]
                    = some [Lock.mgr m'] from rfl), ?_⟩
                simp only [mgrOnly_append, Bool.and_eq_true]
                exact ⟨⟨⟨⟨rfl, mgrOnly_of_noLock hIn⟩, rfl⟩,
                  mgrOnly_of_noLock hRe⟩, rfl⟩
              · rw [if_neg hf]
                have h := ih (sd_card_init (renv retry).reinit
                    (sd_card_is_initialized (renv retry).probeOk st).2.1).2.1
                  m' (retry + 1)
                rcases hrec : writeOpenLoop path renv
                    (sd_card_init (renv retry).reinit
                      (sd_card_is_initialized (renv retry).probeOk st).2.1).2.1
                    m' (retry + 1) fuel with
                  ⟨st', m'', tr⟩ | ⟨st', m'', tr⟩ | ⟨e', st', tr⟩ <;>
                  rw [hrec] at h <;>
                  dsimp only [OpenRes.prepend] <;>
                  refine ⟨lockRun_seq (lockRun_seq (lockRun_seq hGive
                    (lockRun_neutral_seg hRe _))
                    (show lockRun (some [])
                        [Ev.take (Lock.mgr m') true, Ev.fopenE path "w" false]
                      = some [Lock.mgr m'] from rfl)) h.1, ?_⟩ <;>
                  · simp only [mgrOnly_append, Bool.and_eq_true]
                    exact ⟨⟨⟨⟨⟨rfl, mgrOnly_of_noLock hIn⟩, rfl⟩,
                      mgrOnly_of_noLock hRe⟩, rfl⟩, h.2⟩
            · rw [if_neg hrt]
              refine ⟨lockRun_seq (lockRun_seq hGive
                (lockRun_neutral_seg hRe _))
                (lockRun_single_neutral _ (by rfl) _), ?_⟩
              simp only [mgrOnly_append, Bool.and_eq_true]
              exact ⟨⟨⟨⟨rfl, mgrOnly_of_noLock hIn⟩, rfl⟩,
                mgrOnly_of_noLock hRe⟩, rfl⟩

/-- Every exit path of `sd_card_write_file` ends with the manager lock
fully released (each successful take matched by exactly one give), and the
function only ever touches manager mutexes. -/
theorem sd_card_write_file_lock (env : WriteEnv) (st : MgrState)
    (path data : String) :
    lockRun (some []) (sd_card_write_file env st path data).2.2 = some [] ∧
    mgrOnly (sd_card_write_file env st path data).2.2 = true := by
  simp only [sd_card_write_file]
  split
  · exact ⟨rfl, rfl⟩
  · rcases hm : st.mutex with _ | m <;> dsimp only
    · exact ⟨rfl, rfl⟩
    · by_cases ht : env.takeOk = true
      · rw [if_neg (by simp [ht])]
        have hDir : noLockEvents (ensure_dir_exists env.dirEnv path).2 = true :=
          ensure_dir_exists_noLock _ _
        by_cases hd : (ensure_dir_exists env.dirEnv path).1 ≠ ESP_OK
        · rw [if_pos hd]
          refine ⟨lockRun_seq (lockRun_seq
            (show lockRun (some []) [Ev.take (Lock.mgr m) true]
              = some [Lock.mgr m] from rfl)
            (lockRun_neutral_seg hDir _)) (lockRun_give_self _), ?_⟩
          simp only [mgrOnly_append, Bool.and_eq_true]
          exact ⟨⟨rfl, mgrOnly_of_noLock hDir⟩, rfl⟩
        · rw [if_neg hd]
          by_cases hroot : env.rootDirOk = true
          · rw [if_neg (by simp [hroot])]
            have hDiag : noLockEvents (writeDiagTrace env) = true :=
              writeDiagTrace_noLock _
            have hTr2 : lockRun (some [])
                ((([Ev.take (Lock.mgr m) true] ++
                    (ensure_dir_exists env.dirEnv path).2) ++
                  [Ev.openDirE "/sdcard" true]) ++ writeDiagTrace env)
                = some [Lock.mgr m] :=
              lockRun_seq (lockRun_seq (lockRun_seq
                (show lockRun (some []) [Ev.take (Lock.mgr m) true]
                  = some [Lock.mgr m] from rfl)
                (lockRun_neutral_seg hDir _))
                (lockRun_single_neutral _ (by rfl) _))
                (lockRun_neutral_seg hDiag _)
            have h := writeOpenLoop_lock path env.retry 3 st m 0
            rcases hres : writeOpenLoop path env.retry st m 0 3 with
              ⟨st', m', tr⟩ | ⟨st', m', tr⟩ | ⟨e', st', tr⟩ <;>
              rw [hres] at h <;> dsimp only
            · refine ⟨lockRun_seq (lockRun_seq hTr2 h.1) ?_, ?_⟩
              · rw [lockRun_cons]
                exact lockRun_give_self _
              · simp only [mgrOnly_append, Bool.and_eq_true]
                exact ⟨⟨⟨⟨⟨rfl, mgrOnly_of_noLock hDir⟩, rfl⟩,
                  mgrOnly_of_noLock hDiag⟩, h.2⟩, rfl⟩
            · refine ⟨lockRun_seq (lockRun_seq hTr2 h.1)
                (lockRun_give_self _), ?_⟩
              simp only [mgrOnly_append, Bool.and_eq_true]
              exact ⟨⟨⟨⟨⟨rfl, mgrOnly_of_noLock hDir⟩, rfl⟩,
                mgrOnly_of_noLock hDiag⟩, h.2⟩, rfl⟩
            · refine ⟨lockRun_seq hTr2 h.1, ?_⟩
              simp only [mgrOnly_append, Bool.and_eq_true]
              exact ⟨⟨⟨⟨rfl, mgrOnly_of_noLock hDir⟩, rfl⟩,
                mgrOnly_of_noLock hDiag⟩, h.2⟩
          · rw [if_pos (by simp [hroot])]
            refine ⟨lockRun_seq (lockRun_seq
              (show lockRun (some []) [Ev.take (Lock.mgr m) true]
                = some [Lock.mgr m] from rfl)
              (lockRun_neutral_seg hDir _)) ?_, ?_⟩
            · rw [lockRun_cons]
              exact lockRun_give_self _
            · simp only [mgrOnly_append, Bool.and_eq_true]
              exact ⟨⟨rfl, mgrOnly_of_noLock hDir⟩, rfl⟩
      · rw [if_pos (by simp [ht])]
        exact ⟨rfl, rfl⟩

/-- Every exit path of `sd_card_append_file` that returns at all ends with
the manager lock fully released, touching only manager mutexes. -/
theorem sd_card_append_file_lock (env : AppendEnv) (st : MgrState)
    (path data : String) (res : EspErr × MgrState × List Ev)
    (h : sd_card_append_file env st path data = some res) :
    lockRun (some []) res.2.2 = some [] ∧ mgrOnly res.2.2 = true := by
  unfold sd_card_append_file at h
  rcases hm : st.mutex with _ | m <;> rw [hm] at h
  · exact absurd h (by simp)
  · dsimp only at h
    have hDir : noLockEvents (ensure_dir_exists env.dirEnv path).2 = true :=
      ensure_dir_exists_noLock _ _
    by_cases ht : env.takeOk = true
    · rw [if_neg (by simp [ht])] at h
      by_cases hd : (ensure_dir_exists env.dirEnv path).1 ≠ ESP_OK
      · rw [if_pos hd] at h
        obtain rfl := Option.some.inj h
        refine ⟨lockRun_seq (lockRun_seq
          (show lockRun (some []) [Ev.take (Lock.mgr m) true]
            = some [Lock.mgr m] from rfl)
          (lockRun_neutral_seg hDir _)) (lockRun_give_self _), ?_⟩
        simp only [mgrOnly_append, Bool.and_eq_true]
        exact ⟨⟨rfl, mgrOnly_of_noLock hDir⟩, rfl⟩
      · rw [if_neg hd] at h
        by_cases hf : env.fopenOk = true
        · rw [if_neg (by simp [hf])] at h
          obtain rfl := Option.some.inj h
          refine ⟨lockRun_seq (lockRun_seq
            (show lockRun (some []) [Ev.take (Lock.mgr m) true]
              = some [Lock.mgr m] from rfl)
            (lockRun_neutral_seg hDir _)) ?_, ?_⟩
          · rw [lockRun_cons, lockRun_cons]
            exact lockRun_give_self _
          · simp only [mgrOnly_append, Bool.and_eq_true]
            exact ⟨⟨rfl, mgrOnly_of_noLock hDir⟩, rfl⟩
        · rw [if_pos (by simp [hf])] at h
          obtain rfl := Option.some.inj h
          refine ⟨lockRun_seq (lockRun_seq
            (show lockRun (some []) [Ev.take (Lock.mgr m) true]
              = some [Lock.mgr m] from rfl)
            (lockRun_neutral_seg hDir _)) ?_, ?_⟩
          · rw [lockRun_cons]
            exact lockRun_give_self _
          · simp only [mgrOnly_append, Bool.and_eq_true]
            exact ⟨⟨rfl, mgrOnly_of_noLock hDir⟩, rfl⟩
    · rw [if_pos (by simp [ht])] at h
      obtain rfl := Option.some.inj h
      exact ⟨rfl, rfl⟩

/-- **C3**.  `sd_card_write_file` and `sd_card_append_file` never return
while still holding the manager mutex: on every exit path (success,
directory-ensure failure, root-directory probe failure, open failure after
all retries, mid-operation reinitialization whether it succeeds or fails,
and lock-acquire timeout) every successfully acquired lock is released
exactly once before the function returns.  (The one path on which append
does not return at all — taking a null mutex — holds no lock either.) -/
theorem sd_card_write_append_release_lock (env : WriteEnv)
    (aenv : AppendEnv) (st st' : MgrState) (path data path' data' : String) :
    lockOk (sd_card_write_file env st path data).2.2 ∧
    ((sd_card_append_file aenv st' path' data').elim True fun res =>
      lockOk res.2.2) := by
  refine ⟨(sd_card_write_file_lock env st path data).1, ?_⟩
  rcases ha : sd_card_append_file aenv st' path' data' with _ | res
  · trivial
  · exact (sd_card_append_file_lock aenv st' path' data' res ha).1

/-- The one-directional handle invariant: when the initialized flag is
set, both the card handle and the mutex are present. -/
def MgrInv (s : MgrState) : Prop :=
  s.initialized = true → (s.card.isSome = true ∧ s.mutex.isSome = true)

theorem MgrInv_of_uninit {s : MgrState} (h : s.initialized = false) :
    MgrInv s := by
  intro hi
  rw [h] at hi
  exact Bool.noConfusion hi

theorem sd_card_deinit_uninit (st : MgrState) :
    (sd_card_deinit st).2.1.initialized = false := by
  unfold sd_card_deinit
  rcases hc : st.card <;> rcases hm : st.mutex <;> simp [hc, hm]

theorem sd_card_full_deinit_uninit (st : MgrState) :
    (sd_card_full_deinit st).2.1.initialized = false :=
  sd_card_deinit_uninit st

theorem initLoop_inv (env : InitEnv) (fuel : Nat) :
    ∀ st attempt lastRet, MgrInv st →
      MgrInv (initLoop env st attempt fuel lastRet).2.1 := by
  induction fuel with
  | zero => intro st a r h; exact h
  | succ fuel ih =>
    intro st a r h
    simp only [initLoop]
    split_ifs <;>
      first
      | exact fun _ => ⟨rfl, rfl⟩
      | exact ih _ _ _ (MgrInv_of_uninit (sd_card_full_deinit_uninit _))

theorem sd_card_init_inv (env : InitEnv) (st : MgrState) :
    MgrInv (sd_card_init env st).2.1 := by
  simp only [sd_card_init]
  by_cases h : st.initialized = true
  · rw [if_pos h]
    exact initLoop_inv env 3 _ 1 ESP_FAIL
      (MgrInv_of_uninit (sd_card_full_deinit_uninit st))
  · rw [if_neg h]
    exact initLoop_inv env 3 st 1 ESP_FAIL
      (MgrInv_of_uninit (Bool.not_eq_true _ ▸ h))

theorem sd_card_is_initialized_inv (p : Bool) {st : MgrState}
    (h : MgrInv st) : MgrInv (sd_card_is_initialized p st).2.1 := by
  unfold sd_card_is_initialized
  split_ifs with h1 h2
  · exact h
  · exact h
  · exact MgrInv_of_uninit rfl

theorem writeOpenLoop_inv (path : String) (renv : Nat → WriteRetryEnv)
    (fuel : Nat) :
    ∀ st m retry, MgrInv st →
      (match writeOpenLoop path renv st m retry fuel with
       | .opened st' _ _ => MgrInv st'
       | .failedOpen st' _ _ => MgrInv st'
       | .err _ st' _ => MgrInv st') := by
  induction fuel with
  | zero => intro st m retry h; exact h
  | succ fuel ih =>
    intro st m retry h
    simp only [writeOpenLoop]
    by_cases h0 : retry = 0
    · rw [if_pos h0]
      by_cases hf : (renv retry).fopenOk = true
      · rw [if_pos hf]; exact h
      · rw [if_neg hf]
        have hr := ih st m (retry + 1) h
        rcases hrec : writeOpenLoop path renv st m (retry + 1) fuel with
          ⟨s', m', tr⟩ | ⟨s', m', tr⟩ | ⟨e', s', tr⟩ <;> rw [hrec] at hr <;>
          exact hr
    · rw [if_neg h0]
      have hI : MgrInv (sd_card_is_initialized (renv retry).probeOk st).2.1 :=
        sd_card_is_initialized_inv _ h
      by_cases hp : (sd_card_is_initialized (renv retry).probeOk st).1 = true
      · rw [if_pos hp]
        by_cases hf : (renv retry).fopenOk = true
        · rw [if_pos hf]; exact hI
        · rw [if_neg hf]
          have hr := ih _ m (retry + 1) hI
          rcases hrec : writeOpenLoop path renv
              (sd_card_is_initialized (renv retry).probeOk st).2.1 m
              (retry + 1) fuel with
            ⟨s', m', tr⟩ | ⟨s', m', tr⟩ | ⟨e', s', tr⟩ <;> rw [hrec] at hr <;>
            exact hr
      · rw [if_neg hp]
        have hRi : MgrInv (sd_card_init (renv retry).reinit
            (sd_card_is_initialized (renv retry).probeOk st).2.1).2.1 :=
          sd_card_init_inv _ _
        by_cases hre : (sd_card_init (renv retry).reinit
            (sd_card_is_initialized (renv retry).probeOk st).2.1).1 ≠ ESP_OK
        · rw [if_pos hre]; exact hRi
        · rw [if_neg hre]
          rcases hm2 : (sd_card_init (renv retry).reinit
              (sd_card_is_initialized (renv retry).probeOk st).2.1).2.1.mutex
            with _ | m' <;> dsimp only
          · exact hRi
          · by_cases hrt : (renv retry).retakeOk = true
            · rw [if_pos hrt]
              by_cases hf : (renv retry).fopenOk = true
              · rw [if_pos hf]; exact hRi
              · rw [if_neg hf]
                have hr := ih _ m' (retry + 1) hRi
                rcases hrec : writeOpenLoop path renv
                    (sd_card_init (renv retry).reinit
                      (sd_card_is_initialized (renv retry).probeOk st).2.1).2.1
                    m' (retry + 1) fuel with
                  ⟨s', m'', tr⟩ | ⟨s', m'', tr⟩ | ⟨e', s', tr⟩ <;>
                  rw [hrec] at hr <;> exact hr
            · rw [if_neg hrt]; exact hRi

theorem sd_card_write_file_inv (env : WriteEnv) {st : MgrState}
    (path data : String) (h : MgrInv st) :
    MgrInv (sd_card_write_file env st path data).2.1 := by
  simp only [sd_card_write_file]
  split
  · exact h
  · rcases hm : st.mutex with _ | m <;> dsimp only
    · exact h
    · split_ifs <;>
        first
        | exact h
        | (have hl := writeOpenLoop_inv path env.retry 3 st m 0 h
           rcases hres : writeOpenLoop path env.retry st m 0 3 with
             ⟨s', m', tr⟩ | ⟨s', m', tr⟩ | ⟨e', s', tr⟩ <;> rw [hres] at hl <;>
             exact hl)

theorem sd_card_append_file_state (env : AppendEnv) (st : MgrState)
    (path data : String) (res : EspErr × MgrState × List Ev)
    (h : sd_card_append_file env st path data = some res) : res.2.1 = st := by
  unfold sd_card_append_file at h
  rcases hm : st.mutex with _ | m <;> rw [hm] at h
  · exact absurd h (by simp)
  · dsimp only at h
    split_ifs at h <;> exact congrArg (fun r => r.2.1) (Option.some.inj h).symm

/-- **C8** (amended).  In every reachable manager state, a set initialized
flag guarantees the card handle and the mutex are present (flag →
non-null); the full biconditional of the claim fails after lazy demotion
(see the counterexample). -/
theorem reach_mounted_implies_handle (s : MgrState) (h : Reach s) :
    s.initialized = true → (s.card.isSome = true ∧ s.mutex.isSome = true) := by
  induction h with
  | start => exact MgrInv_of_uninit rfl
  | init env _ _ => exact sd_card_init_inv env _
  | deinit _ _ => exact MgrInv_of_uninit (sd_card_deinit_uninit _)
  | fullDeinit _ _ => exact MgrInv_of_uninit (sd_card_full_deinit_uninit _)
  | isInit probeOk _ ih => exact sd_card_is_initialized_inv probeOk ih
  | getInfo env wt wf _ ih =>
    simp only [sd_card_get_info]
    split <;> exact sd_card_is_initialized_inv env.probeOk ih
  | write env path data _ ih => exact sd_card_write_file_inv env path data ih
  | append env path data r _ hsome ih =>
    rw [sd_card_append_file_state env _ path data r hsome]
    exact ih

/-- Witness for `reach_mounted_implies_handle`: a freshly and successfully
initialized state is reachable, mounted, and indeed carries a handle and a
lock. -/
theorem reach_mounted_implies_handle_witness :
    ((sd_card_init c8InitEnv mgrState0).2.1.card.isSome = true ∧
     (sd_card_init c8InitEnv mgrState0).2.1.mutex.isSome = true) :=
  reach_mounted_implies_handle _ (Reach.init c8InitEnv Reach.start) (by decide)

/-- **C8** (counterexample).  The claimed biconditional "handle non-null
iff mounted" does not survive the liveness probe's lazy demotion: after a
successful init and one `sd_card_is_initialized` whose mount-point probe
fails, the reachable state has the flag cleared but the handle still
non-null. -/
theorem handle_iff_mounted_cex :
    Reach c8DemotedState ∧
    c8DemotedState.card.isSome = true ∧
    c8DemotedState.initialized = false :=
  ⟨Reach.isInit false (Reach.init c8InitEnv Reach.start), by decide, by decide⟩

/-- **C9** (counterexample).  In a reachable unmounted state (reached by
lazy demotion, so the mutex still exists), `sd_card_append_file` does not
fail with `ESP_ERR_INVALID_STATE`: it performs the directory probe and the
append-mode open and returns the open's failure (`ESP_FAIL` here) — there
is no precondition check in the function at all. -/
theorem sd_card_append_no_check_cex :
    c9DemotedState.initialized = false ∧
    sd_card_append_file ⟨true, ⟨true, true, true⟩, false⟩ c9DemotedState
      "/sdcard/x.txt" "d" =
      some (EspErr.ESP_FAIL, c9DemotedState,
        [Ev.take (Lock.mgr 0) true, Ev.openDirE "/sdcard" true,
         Ev.fopenE "/sdcard/x.txt" "a" false, Ev.give (Lock.mgr 0)]) ∧
    EspErr.ESP_FAIL ≠ EspErr.ESP_ERR_INVALID_STATE := by
  decide

/-- **C9** (amended).  `sd_card_append_file` performs no mounted-state or
lock-existence check: its result code and trace are independent of the
initialized flag and the card handle; when the mutex does not exist the
take is on a null handle (no defined return, not `InvalidState`); when it
exists, the lock is acquired with an unbounded wait and the function
ensures the parent directory and opens the file in append mode, creating
it if absent. -/
theorem sd_card_append_no_precondition (env : AppendEnv) (st : MgrState)
    (p d : String) (b : Bool) (c : Option Card) :
    ((sd_card_append_file env { st with initialized := b, card := c } p d).map
        (fun r => (r.1, r.2.2)) =
      (sd_card_append_file env st p d).map (fun r => (r.1, r.2.2))) ∧
    (st.mutex = none → sd_card_append_file env st p d = none) ∧
    (∀ m, st.mutex = some m → env.takeOk = true →
      (ensure_dir_exists env.dirEnv p).1 = EspErr.ESP_OK → env.fopenOk = true →
      sd_card_append_file env st p d =
        some (EspErr.ESP_OK, st,
          [Ev.take (Lock.mgr m) true] ++ (ensure_dir_exists env.dirEnv p).2 ++
            [Ev.fopenE p "a" true, Ev.fwriteE p, Ev.give (Lock.mgr m)])) := by
  refine ⟨?_, ?_, ?_⟩
  · unfold sd_card_append_file
    rcases hm : st.mutex with _ | m
    · simp [hm]
    · simp only [hm]
      split_ifs <;> rfl
  · intro hm
    unfold sd_card_append_file
    rw [hm]
  · intro m hm h1 h2 h3
    unfold sd_card_append_file
    rw [hm]
    dsimp only
    rw [if_neg (by simp [h1]), if_neg (by simp [h2]), if_neg (by simp [h3])]

/-- Witness for `sd_card_append_no_precondition`: a mounted state with an
existing mutex, everything succeeding. -/
theorem sd_card_append_no_precondition_witness :
    sd_card_append_file ⟨true, ⟨true, true, true⟩, true⟩ mountedState
      "/sdcard/x.txt" "d" =
      some (EspErr.ESP_OK, mountedState,
        [Ev.take (Lock.mgr 0) true] ++
          (ensure_dir_exists ⟨true, true, true⟩ "/sdcard/x.txt").2 ++
          [Ev.fopenE "/sdcard/x.txt" "a" true, Ev.fwriteE "/sdcard/x.txt",
           Ev.give (Lock.mgr 0)]) :=
  (sd_card_append_no_precondition ⟨true, ⟨true, true, true⟩, true⟩
    mountedState "/sdcard/x.txt" "d" true none).2.2 0 rfl rfl (by decide) rfl

theorem settings_save_cfgOnly (cenv : CfgEnv) (cst : CfgState)
    (s : touch_settings_t) : cfgOnly (settings_save cenv cst s).2 = true := by
  unfold settings_save s_example_write_file
  split_ifs <;> rfl

theorem settings_load_cfgOnly (cenv : CfgEnv) (cst : CfgState) :
    cfgOnly (settings_load cenv cst).2.2 = true := by
  unfold settings_load
  split_ifs <;> try rfl
  rcases hfc : cst.fileContent with _ | content <;> dsimp only
  · rw [cfgOnly_append, settings_save_cfgOnly]
    rfl
  · rcases settings_from_json (content.take 255) cst.current with _ | upd <;> rfl

/-- **C10** (counterexample).  Two medium-touching operations acquire
disjoint locks: `sd_card_write_file` takes only the manager's mutex and
`settings_load` takes only the settings-config mutex — the repository's
two `static SemaphoreHandle_t sd_card_mutex` variables are distinct
objects, so there is no single AccessLock serializing all file
operations. -/
theorem single_lock_serialization_cex :
    locksTaken (sd_card_write_file c10WriteEnv c10MountedState
      "/sdcard/settings.cfg" "x").2.2 = [Lock.mgr 0] ∧
    locksTaken (settings_load cfgEnvOk c10CfgState).2.2 = [Lock.cfg] ∧
    touchesMedium (sd_card_write_file c10WriteEnv c10MountedState
      "/sdcard/settings.cfg" "x").2.2 = true ∧
    touchesMedium (settings_load cfgEnvOk c10CfgState).2.2 = true ∧
    (locksTaken (sd_card_write_file c10WriteEnv c10MountedState
      "/sdcard/settings.cfg" "x").2.2).inter
        (locksTaken (settings_load cfgEnvOk c10CfgState).2.2) = [] := by
  decide

/-- **C10** (amended).  Each subsystem is serialized by its own lock:
`sd_card_write_file` only ever takes/gives manager-mutex instances, while
`settings_save` and `settings_load` only ever take/give the settings
mutex, and these lock objects are distinct — not one shared AccessLock. -/
theorem per_subsystem_locks (env : WriteEnv) (st : MgrState)
    (p d : String) (cenv : CfgEnv) (cst : CfgState) (s : touch_settings_t) :
    mgrOnly (sd_card_write_file env st p d).2.2 = true ∧
    cfgOnly (settings_save cenv cst s).2 = true ∧
    cfgOnly (settings_load cenv cst).2.2 = true ∧
    ∀ i : Nat, Lock.mgr i ≠ Lock.cfg :=
  ⟨(sd_card_write_file_lock env st p d).2, settings_save_cfgOnly cenv cst s,
   settings_load_cfgOnly cenv cst, fun _ h => Lock.noConfusion h⟩

/-- Witness for `per_subsystem_locks` at concrete inputs. -/
theorem per_subsystem_locks_witness :
    mgrOnly (sd_card_write_file c10WriteEnv c10MountedState
      "/sdcard/settings.cfg" "x").2.2 = true ∧
    cfgOnly (settings_load cfgEnvOk c10CfgState).2.2 = true ∧
    Lock.mgr 0 ≠ Lock.cfg :=
  ⟨(per_subsystem_locks c10WriteEnv c10MountedState "/sdcard/settings.cfg" "x"
      cfgEnvOk c10CfgState currentSettings0).1,
   (per_subsystem_locks c10WriteEnv c10MountedState "/sdcard/settings.cfg" "x"
      cfgEnvOk c10CfgState currentSettings0).2.2.1,
   (per_subsystem_locks c10WriteEnv c10MountedState "/sdcard/settings.cfg" "x"
      cfgEnvOk c10CfgState currentSettings0).2.2.2 0⟩

end Dashboard
